import Mathlib

/-!
Shallow embedding of the LLM analysis orchestration layer of the
Gmail-MCP-Server repository: the TTL result cache and token tracker
(`src/llm/provider.ts`, listed in SETUP-AI.md), the tier configuration
resolver (`src/llm/config.ts`), the prompt builders (`src/llm/prompts.ts`)
and the analysis façades and batch orchestrator (`src/ai-tools.ts`).

JavaScript machine state (the shared cache, the token tracker, the wall
clock) is threaded explicitly through a `World` record; asynchronous calls
that may throw are modelled with `Except String`, and side effects that
survive a thrown error (as they do in JavaScript) are kept by returning the
updated `World` alongside the `Except` result.  A ghost event log records
externally observable actions (fetches, cache reads/writes, vendor calls)
so that ordering and counting properties can be stated.
-/

namespace GmailMCP

/-! ## Result cache (`LLMCache` in src/llm/provider.ts) -/

/-- One entry of the cache `Map`: `{ data: any; timestamp: Date }`,
with the timestamp in milliseconds. -/
structure CacheEntry (α : Type) where
  data : α
  timestamp : Nat
deriving DecidableEq

/-- `class LLMCache`: a `Map<string, { data, timestamp }>` plus a single
shared TTL (`60 * 60 * 1000` ms in the source).  The `Map` is modelled
observably, as the lookup function it denotes. -/
structure LLMCache (α : Type) where
  store : String → Option (CacheEntry α)
  ttl : Nat

/-- `set(key, data)`: `this.cache.set(key, { data, timestamp: new Date() })`. -/
def LLMCache.set {α : Type} (c : LLMCache α) (key : String) (data : α)
    (now : Nat) : LLMCache α :=
  { c with store := fun k => if k = key then some ⟨data, now⟩ else c.store k }

/-- `get(key)`: returns `null` on a missing entry; an entry with
`Date.now() - entry.timestamp.getTime() > this.ttl` is deleted from the map
and treated as absent; otherwise the entry's data is returned. -/
def LLMCache.get {α : Type} (c : LLMCache α) (key : String) (now : Nat) :
    Option α × LLMCache α :=
  match c.store key with
  | none => (none, c)
  | some entry =>
    if now - entry.timestamp > c.ttl then
      (none, { c with store := fun k => if k = key then none else c.store k })
    else
      (some entry.data, c)

/-- `has(key)`: `this.get(key) !== null`. -/
def LLMCache.hasKey {α : Type} (c : LLMCache α) (key : String) (now : Nat) : Bool :=
  ((c.get key now).1).isSome

/-- `clear()`: `this.cache.clear()`. -/
def LLMCache.clear {α : Type} (c : LLMCache α) : LLMCache α :=
  { c with store := fun _ => none }

/-- `new LLMCache()`: empty map, one-hour TTL. -/
def llmCacheInit (α : Type) : LLMCache α :=
  { store := fun _ => none, ttl := 60 * 60 * 1000 }

/-! ## Tier configuration resolver (src/llm/config.ts) -/

/-- The environment variables read by `getLLMConfig` /
`getApiKeyForProvider`.  A variable is either unset (`none`) or set to a
string (possibly empty; the source tests them with JavaScript truthiness,
under which the empty string counts as unset). -/
structure Env where
  LLM_PROVIDER : Option String
  ECONOMY_LLM_PROVIDER : Option String
  LLM_MODEL : Option String
  ECONOMY_LLM_MODEL : Option String
  ANTHROPIC_API_KEY : Option String
  OPENAI_API_KEY : Option String
  GOOGLE_AI_API_KEY : Option String
deriving DecidableEq

/-- JavaScript `x || d` where `x` is a possibly-undefined string:
the empty string is falsy and falls back to the default. -/
def strOr (v : Option String) (d : String) : String :=
  match v with
  | some s => if s = "" then d else s
  | none => d

/-- `interface LLMConfig { provider; model; apiKey }`.  The TypeScript
provider union type is erased to `String`, as it is at runtime (the source
casts arbitrary environment strings into the union unchecked). -/
structure LLMConfig where
  provider : String
  model : String
  apiKey : String
deriving DecidableEq

/-- `interface ModelTier { default; economy }` (the optional `chat` tier is
never constructed by the source). -/
structure ModelTier where
  default : LLMConfig
  economy : LLMConfig
deriving DecidableEq

/-- `getDefaultModelForProvider`. -/
def getDefaultModelForProvider (provider : String) : String :=
  if provider = "anthropic" then "claude-sonnet-4-5-20250929"
  else if provider = "openai" then "gpt-4o"
  else if provider = "google" then "gemini-2.0-flash-exp"
  else "claude-sonnet-4-5-20250929"

/-- `getEconomyModelForProvider`. -/
def getEconomyModelForProvider (provider : String) : String :=
  if provider = "anthropic" then "claude-haiku-4-5-20250929"
  else if provider = "openai" then "gpt-4o-mini"
  else if provider = "google" then "gemini-2.0-flash-exp"
  else "claude-haiku-4-5-20250929"

/-- `getApiKeyForProvider`: vendor-keyed lookup that throws when the
selected vendor's key variable is unset (or empty, by JS truthiness), and
throws `Unknown provider` for unrecognized vendor strings. -/
def getApiKeyForProvider (env : Env) (provider : String) : Except String String :=
  if provider = "anthropic" then
    match env.ANTHROPIC_API_KEY with
    | some k =>
      if k = "" then
        .error "ANTHROPIC_API_KEY environment variable is required for Anthropic provider"
      else .ok k
    | none =>
      .error "ANTHROPIC_API_KEY environment variable is required for Anthropic provider"
  else if provider = "openai" then
    match env.OPENAI_API_KEY with
    | some k =>
      if k = "" then
        .error "OPENAI_API_KEY environment variable is required for OpenAI provider"
      else .ok k
    | none =>
      .error "OPENAI_API_KEY environment variable is required for OpenAI provider"
  else if provider = "google" then
    match env.GOOGLE_AI_API_KEY with
    | some k =>
      if k = "" then
        .error "GOOGLE_AI_API_KEY environment variable is required for Google provider"
      else .ok k
    | none =>
      .error "GOOGLE_AI_API_KEY environment variable is required for Google provider"
  else .error ("Unknown provider: " ++ provider)

/-- `getLLMConfig`: resolves both tiers from the environment.  The default
tier's key lookup is evaluated before the economy tier's, as in the source,
so when both are missing the default tier's error surfaces. -/
def getLLMConfig (env : Env) : Except String ModelTier :=
  let provider := strOr env.LLM_PROVIDER "anthropic"
  let economyProvider := strOr env.ECONOMY_LLM_PROVIDER provider
  let defaultModel := strOr env.LLM_MODEL (getDefaultModelForProvider provider)
  match getApiKeyForProvider env provider with
  | .error e => .error e
  | .ok defaultApiKey =>
    let economyModel :=
      strOr env.ECONOMY_LLM_MODEL (getEconomyModelForProvider economyProvider)
    match getApiKeyForProvider env economyProvider with
    | .error e => .error e
    | .ok economyApiKey =>
      .ok { default := ⟨provider, defaultModel, defaultApiKey⟩,
            economy := ⟨economyProvider, economyModel, economyApiKey⟩ }

/-- The provider string the default tier resolves to
(`process.env.LLM_PROVIDER || 'anthropic'`). -/
def resolvedDefaultProvider (env : Env) : String :=
  strOr env.LLM_PROVIDER "anthropic"

/-- The provider string the economy tier resolves to
(`process.env.ECONOMY_LLM_PROVIDER || provider`). -/
def resolvedEconomyProvider (env : Env) : String :=
  strOr env.ECONOMY_LLM_PROVIDER (resolvedDefaultProvider env)

/-! ## Token usage tracker (src/llm/config.ts) -/

/-- `interface ModelUsage`, with the `Date` timestamp as milliseconds. -/
structure ModelUsage where
  provider : String
  model : String
  inputTokens : Nat
  outputTokens : Nat
  timestamp : Nat
  operation : String
deriving DecidableEq

/-- `TokenTracker.track`: push the record, then keep only the last 1000
(`this.usage = this.usage.slice(-1000)`). -/
def trackUsage (usage : List ModelUsage) (u : ModelUsage) : List ModelUsage :=
  let l := usage ++ [u]
  if l.length > 1000 then l.drop (l.length - 1000) else l

/-! ## Structured result shapes (output schemas in src/ai-tools.ts)

Confidence fields are `z.number().min(0).max(1)` floats; they are modelled
as rationals, which is faithful for every value the claims touch. -/

inductive Category
  | NEWSLETTER | MARKETING | CALENDAR | RECEIPT
  | NOTIFICATION | PERSONAL | WORK | COLD_EMAIL
deriving DecidableEq

/-- The string a `Category` value is at runtime. -/
def catName : Category → String
  | .NEWSLETTER => "NEWSLETTER"
  | .MARKETING => "MARKETING"
  | .CALENDAR => "CALENDAR"
  | .RECEIPT => "RECEIPT"
  | .NOTIFICATION => "NOTIFICATION"
  | .PERSONAL => "PERSONAL"
  | .WORK => "WORK"
  | .COLD_EMAIL => "COLD_EMAIL"

inductive ColdEmailType
  | SALES | RECRUITMENT | PARTNERSHIP | LEGITIMATE | UNKNOWN
deriving DecidableEq

/-- The string a `ColdEmailType` value is at runtime. -/
def coldTypeName : ColdEmailType → String
  | .SALES => "SALES"
  | .RECRUITMENT => "RECRUITMENT"
  | .PARTNERSHIP => "PARTNERSHIP"
  | .LEGITIMATE => "LEGITIMATE"
  | .UNKNOWN => "UNKNOWN"

inductive SuggestedAction
  | ARCHIVE | LABEL_COLD | ALLOW | REVIEW
deriving DecidableEq, BEq

/-- The string a `SuggestedAction` value is at runtime. -/
def actionName : SuggestedAction → String
  | .ARCHIVE => "ARCHIVE"
  | .LABEL_COLD => "LABEL_COLD"
  | .ALLOW => "ALLOW"
  | .REVIEW => "REVIEW"

/-- `CategorizationResultSchema`. -/
structure CategorizationResult where
  category : Category
  confidence : Rat
  reasoning : String
  suggestedLabels : Option (List String)
deriving DecidableEq

/-- `ColdEmailResultSchema`. -/
structure ColdEmailResult where
  isColdEmail : Bool
  coldEmailType : ColdEmailType
  confidence : Rat
  reasoning : String
  suggestedAction : SuggestedAction
deriving DecidableEq

/-- The `people` element shape of `ContextExtractionResultSchema`. -/
structure PersonEntry where
  name : String
  email : String
  role : Option String
deriving DecidableEq

/-- The `dates` element shape of `ContextExtractionResultSchema`. -/
structure DateEntry where
  date : String
  context : String
deriving DecidableEq

/-- `ContextExtractionResultSchema`. -/
structure ContextExtractionResult where
  summary : String
  keyPoints : List String
  actionItems : List String
  people : List PersonEntry
  dates : List DateEntry
  relevantContext : String
  confidence : Rat
deriving DecidableEq

/-- A value stored in the shared cache (`any` in the source; only
categorization and cold-detection results are ever stored, under the
disjoint key prefixes `categorize:` and `cold:`). -/
inductive CachedValue
  | categorization (r : CategorizationResult)
  | cold (r : ColdEmailResult)
deriving DecidableEq

/-! ## Prompt builders (src/llm/prompts.ts) -/

/-- A `{ system, prompt }` pair returned by a prompt builder. -/
structure PromptPair where
  system : String
  prompt : String
deriving DecidableEq

/-- Parameters of `getCategorizationPrompt`. -/
structure CategorizationPromptParams where
  fromAddr : String
  subject : String
  snippet : String
  customCategories : Option (List String)

/-- `getCategorizationPrompt`.  `customCategories?.length ? join : default`:
a missing or empty list falls back to the standard category list. -/
def getCategorizationPrompt (params : CategorizationPromptParams) : PromptPair :=
  let categories :=
    match params.customCategories with
    | some l =>
      if l.length > 0 then String.intercalate ", " l
      else "NEWSLETTER, MARKETING, CALENDAR, RECEIPT, NOTIFICATION, PERSONAL, WORK, COLD_EMAIL"
    | none => "NEWSLETTER, MARKETING, CALENDAR, RECEIPT, NOTIFICATION, PERSONAL, WORK, COLD_EMAIL"
  { system :=
      "You are an expert email categorization system. Analyze emails and categorize them accurately.\n\n"
      ++ "Categories:\n"
      ++ "- NEWSLETTER: Regular newsletters, digests, blog updates\n"
      ++ "- MARKETING: Promotional emails, sales, special offers\n"
      ++ "- CALENDAR: Meeting invites, event notifications, calendar updates\n"
      ++ "- RECEIPT: Purchase confirmations, invoices, payment receipts\n"
      ++ "- NOTIFICATION: System notifications, alerts, status updates\n"
      ++ "- PERSONAL: Personal correspondence from known contacts\n"
      ++ "- WORK: Work-related emails from colleagues or clients\n"
      ++ "- COLD_EMAIL: Unsolicited sales, recruitment, partnership requests\n\n"
      ++ "Categorization Guidelines:\n"
      ++ "- Use specific indicators in subject, sender domain, and content\n"
      ++ "- Newsletters typically have \"unsubscribe\" links and regular sending patterns\n"
      ++ "- Marketing emails emphasize offers, discounts, limited-time deals\n"
      ++ "- Receipts contain order numbers, amounts, transaction IDs\n"
      ++ "- Cold emails often request meetings, demos, or introduce unknown services\n"
      ++ "- Be precise - avoid PERSONAL category unless clearly from a known contact\n\n"
      ++ "Available categories: " ++ categories,
    prompt :=
      "Categorize this email:\n\n"
      ++ "From: " ++ params.fromAddr ++ "\n"
      ++ "Subject: " ++ params.subject ++ "\n"
      ++ "Snippet: " ++ params.snippet ++ "\n\n"
      ++ "Provide the category, confidence score (0.0-1.0), reasoning, and suggested Gmail labels." }

/-- The optional `userProfile` of `detect_cold_email`. -/
structure UserProfile where
  company : Option String
  role : Option String
  interests : Option (List String)
deriving DecidableEq

/-- Parameters of `getColdEmailPrompt`. -/
structure ColdEmailPromptParams where
  fromAddr : String
  subject : String
  body : String
  userProfile : Option UserProfile

/-- `getColdEmailPrompt`. -/
def getColdEmailPrompt (params : ColdEmailPromptParams) : PromptPair :=
  let profileContext :=
    match params.userProfile with
    | some up =>
      "\nUser Context:\n- Company: " ++ strOr up.company "Unknown"
      ++ "\n- Role: " ++ strOr up.role "Unknown"
      ++ "\n- Interests: "
      ++ strOr (up.interests.map (String.intercalate ", ")) "Not specified"
      ++ "\n"
    | none => ""
  { system :=
      "You are an expert at detecting cold emails (unsolicited outreach).\n\n"
      ++ "Examples of COLD EMAILS:\n"
      ++ "- Sales pitches for products/services the recipient didn\x27t request\n"
      ++ "- Recruitment emails from unknown recruiters\n"
      ++ "- Partnership requests from companies without prior relationship\n"
      ++ "- Marketing agencies offering services (SEO, web design, etc.)\n"
      ++ "- Investors or VCs reaching out cold\n"
      ++ "- Conference or event promotions\n\n"
      ++ "Examples of LEGITIMATE EMAILS:\n"
      ++ "- Emails from known contacts or colleagues\n"
      ++ "- Replies to previous conversations\n"
      ++ "- Newsletters the user subscribed to\n"
      ++ "- Transactional emails (receipts, password resets, notifications)\n"
      ++ "- Emails from clients or customers\n"
      ++ "- Community or forum notifications\n\n"
      ++ "Key Indicators of Cold Emails:\n"
      ++ "- No prior relationship or context\n"
      ++ "- Generic greetings (\"I hope this email finds you well\")\n"
      ++ "- Emphasis on scheduling calls or demos\n"
      ++ "- Mentions of \"quick chat\" or \"picking your brain\"\n"
      ++ "- Sender researched you on LinkedIn or your website\n"
      ++ "- Offers solutions to problems you didn\x27t mention\n\n"
      ++ "Be conservative - only mark as cold email if clearly unsolicited outreach.",
    prompt :=
      "Analyze if this is a cold email:\n"
      ++ profileContext
      ++ "\nFrom: " ++ params.fromAddr
      ++ "\nSubject: " ++ params.subject
      ++ "\n\nEmail Body:\n" ++ params.body
      ++ "\n\nDetermine if this is a cold email, classify the type (SALES, RECRUITMENT, PARTNERSHIP, LEGITIMATE, UNKNOWN), provide confidence score, reasoning, and suggested action." }

/-- One message of the thread history passed to context extraction. -/
structure ThreadMsg where
  fromAddr : String
  subject : String
  body : String
deriving DecidableEq

/-- Parameters of `getContextExtractionPrompt`. -/
structure ContextPromptParams where
  fromAddr : String
  subject : String
  body : String
  threadHistory : Option (List ThreadMsg)

/-- `getContextExtractionPrompt`. -/
def getContextExtractionPrompt (params : ContextPromptParams) : PromptPair :=
  let threadContext :=
    match params.threadHistory with
    | some l =>
      if l.length > 0 then
        "\nThread History (" ++ toString l.length ++ " previous messages):\n"
        ++ String.intercalate "\n"
            (l.mapIdx fun i msg =>
              "\n[Message " ++ toString (i + 1) ++ "]\nFrom: " ++ msg.fromAddr
              ++ "\nSubject: " ++ msg.subject
              ++ "\nBody: " ++ (msg.body.take 500)
              ++ (if msg.body.length > 500 then "..." else "") ++ "\n")
        ++ "\n"
      else ""
    | none => ""
  { system :=
      "You are an expert at extracting key information from emails for AI agent context.\n\n"
      ++ "Your goal is to provide actionable context that helps AI agents understand:\n"
      ++ "- What is the main purpose of this email?\n"
      ++ "- What are the key points or decisions discussed?\n"
      ++ "- What action items or commitments were made?\n"
      ++ "- Who are the relevant people and their roles?\n"
      ++ "- What are important dates or deadlines?\n\n"
      ++ "Extraction Guidelines:\n"
      ++ "- Be concise but comprehensive (max 500 characters for summary)\n"
      ++ "- Extract specific action items, not general statements\n"
      ++ "- Include people with their context (role, relationship)\n"
      ++ "- Date extraction should include the context (e.g., \"meeting on Jan 15\" not just \"Jan 15\")\n"
      ++ "- Focus on information useful for decision-making\n"
      ++ "- Skip pleasantries and focus on substance\n"
      ++ "- Use bullet points for key points (no bullet characters, just newlines)",
    prompt :=
      "Extract key context from this email thread for AI agent usage:\n"
      ++ threadContext
      ++ "\n\nCurrent Email:\nFrom: " ++ params.fromAddr
      ++ "\nSubject: " ++ params.subject
      ++ "\nBody: " ++ params.body
      ++ "\n\nProvide: summary (1-2 sentences), keyPoints (array), actionItems (array), people (array with name/email/role), dates (array with date/context), and relevantContext (combined text optimized for agent consumption)." }

/-! ## Machine state and ghost event log -/

/-- Ghost record of one externally observable action: an email-data fetch,
a cache read, a cache write, or a vendor inference call. -/
inductive Event
  | fetchCall (messageId : String)
  | cacheGet (key : String)
  | cacheSet (key : String)
  | vendorCall (operation : String)
deriving DecidableEq

/-- Process state threaded through the façades: the shared cache singleton
`llmCache`, the `tokenTracker` singleton, the ghost event log, and the
current wall-clock time in milliseconds (`Date.now()`). -/
structure World where
  cache : LLMCache CachedValue
  tracker : List ModelUsage
  events : List Event
  now : Nat

/-- `llmCache.get(key)` together with its ghost event. -/
def World.cacheGet (w : World) (key : String) : Option CachedValue × World :=
  match w.cache.get key w.now with
  | (v, c) => (v, { w with cache := c, events := w.events ++ [Event.cacheGet key] })

/-- `llmCache.set(key, v)` together with its ghost event. -/
def World.cacheSet (w : World) (key : String) (v : CachedValue) : World :=
  { w with cache := w.cache.set key v w.now,
           events := w.events ++ [Event.cacheSet key] }

/-- Number of vendor inference calls recorded in an event log. -/
def vendorCallCount (events : List Event) : Nat :=
  (events.filter fun e => match e with | .vendorCall _ => true | _ => false).length

/-! ## Structured output invoker (`generateStructuredOutput` in
src/llm/provider.ts) -/

/-- The tier argument (`'default' | 'economy'`). -/
inductive Tier
  | default
  | economy
deriving DecidableEq

/-- The argument record of `generateStructuredOutput`. -/
structure GenParams where
  prompt : String
  system : String
  tier : Tier
  operation : String
deriving DecidableEq

/-- The behaviour of `generateObject` against one output schema: given the
resolved vendor configuration and the request, either throw, or return a
schema-validated value together with the vendor-reported token usage (if
any).  This stands for the external vendor adapter; a deterministic vendor
is simply a function here. -/
def VendorFn (α : Type) : Type :=
  LLMConfig → GenParams → Except String (α × Option (Nat × Nat))

/-- The vendor names recognized by `getProvider`: its `switch` has one case
per supported SDK and a default branch that throws. -/
def knownProvider (provider : String) : Bool :=
  provider = "anthropic" || provider = "openai" || provider = "google"

/-- `generateStructuredOutput`: resolve the configuration (which may throw
before any inference), pick the tier's config, build the provider adapter
(which throws on an unsupported provider string), call the vendor, and on
success record token usage when the vendor reported counts.  Errors are
logged and rethrown unchanged by the source's `catch`; the state reached so
far is kept, as it is in JavaScript. -/
def generateStructuredOutput {α : Type} (env : Env) (vendor : VendorFn α)
    (p : GenParams) (w : World) : Except String α × World :=
  match getLLMConfig env with
  | .error e => (.error e, w)
  | .ok config =>
    let llmConfig := if p.tier = Tier.economy then config.economy else config.default
    if knownProvider llmConfig.provider then
      let w := { w with events := w.events ++ [Event.vendorCall p.operation] }
      match vendor llmConfig p with
      | .error e => (.error e, w)
      | .ok (r, usage) =>
        let w :=
          match usage with
          | some (it, ot) =>
            let u : ModelUsage :=
              { provider := llmConfig.provider, model := llmConfig.model,
                inputTokens := it, outputTokens := ot, timestamp := w.now,
                operation := if p.operation = "" then "structured_output" else p.operation }
            { w with tracker := trackUsage w.tracker u }
          | none => w
        (.ok r, w)
    else (.error ("Unsupported provider: " ++ llmConfig.provider), w)

/-! ## Analysis façades (src/ai-tools.ts) -/

/-- The `{from, subject, snippet}` view fetched by `categorizeEmail`. -/
structure EmailSnippetData where
  fromAddr : String
  subject : String
  snippet : String
deriving DecidableEq

/-- The `{from, subject, body}` view fetched by `detectColdEmail` and
`extractEmailContext`. -/
structure EmailBodyData where
  fromAddr : String
  subject : String
  body : String
deriving DecidableEq

/-- The `{from, subject, snippet, body?}` view fetched once per item by
`batchAnalyzeEmails`. -/
structure EmailFullData where
  fromAddr : String
  subject : String
  snippet : String
  body : Option String
deriving DecidableEq

/-- The email-data provider handed to a façade (`getEmailData`): an async
callback that may throw and, being arbitrary code, may touch the world. -/
def FetchFn (β : Type) : Type :=
  String → World → Except String β × World

/-- The closure `async () => emailData` used inside the batch loop: it
performs no external fetch, returning already-fetched data unchanged. -/
def constFetch {β : Type} (d : β) : FetchFn β :=
  fun _ w => (.ok d, w)

/-- An external email-data provider given as a lookup table, instrumented
to log a ghost `fetchCall` event each time it is invoked. -/
def loggingFetch {β : Type} (tbl : String → Except String β) : FetchFn β :=
  fun id w => (tbl id, { w with events := w.events ++ [Event.fetchCall id] })

/-- The common tail of the caching façades: invoke structured output, and
on success populate the cache under the façade's key (`mk` injects the
typed result into the cache's value type). -/
def cacheMissInvoke {α : Type} (env : Env) (vendor : VendorFn α)
    (mk : α → CachedValue) (key : String) (gp : GenParams) (w : World) :
    Except String α × World :=
  match generateStructuredOutput env vendor gp w with
  | (.error e, w) => (.error e, w)
  | (.ok result, w) => (.ok result, w.cacheSet key (mk result))

/-- Parameters of `categorize_email`. -/
structure CategorizeParams where
  messageId : String
  categories : Option (List String)
deriving DecidableEq

/-- `categorizeEmail`: check the cache first (key `categorize:<messageId>`),
then fetch the email data, build the categorization prompt, call the
economy tier, and cache the result under the same key. -/
def categorizeEmail (env : Env) (vendor : VendorFn CategorizationResult)
    (params : CategorizeParams) (getEmailData : FetchFn EmailSnippetData)
    (w : World) : Except String CategorizationResult × World :=
  let cacheKey := "categorize:" ++ params.messageId
  match w.cacheGet cacheKey with
  | (cached, w) =>
    match cached with
    | some (CachedValue.categorization r) => (.ok r, w)
    | _ =>
      -- a non-categorization value can never sit under a `categorize:` key,
      -- since the two key namespaces are disjoint
      match getEmailData params.messageId w with
      | (.error e, w) => (.error e, w)
      | (.ok emailData, w) =>
        let sp := getCategorizationPrompt
          ⟨emailData.fromAddr, emailData.subject, emailData.snippet, params.categories⟩
        cacheMissInvoke env vendor CachedValue.categorization cacheKey
          ⟨sp.prompt, sp.system, Tier.economy, "categorize_email"⟩ w

/-- Parameters of `detect_cold_email`. -/
structure DetectColdParams where
  messageId : String
  userProfile : Option UserProfile
deriving DecidableEq

/-- `detectColdEmail`: fetch the email data first (the cache key needs the
sender), check the cache (key `cold:<senderAddress>`), build the
cold-detection prompt, call the economy tier, and cache the result by
sender. -/
def detectColdEmail (env : Env) (vendor : VendorFn ColdEmailResult)
    (params : DetectColdParams) (getEmailData : FetchFn EmailBodyData)
    (w : World) : Except String ColdEmailResult × World :=
  match getEmailData params.messageId w with
  | (.error e, w) => (.error e, w)
  | (.ok emailData, w) =>
    let cacheKey := "cold:" ++ emailData.fromAddr
    match w.cacheGet cacheKey with
    | (cached, w) =>
      match cached with
      | some (CachedValue.cold r) => (.ok r, w)
      | _ =>
        let sp := getColdEmailPrompt
          ⟨emailData.fromAddr, emailData.subject, emailData.body, params.userProfile⟩
        cacheMissInvoke env vendor CachedValue.cold cacheKey
          ⟨sp.prompt, sp.system, Tier.economy, "detect_cold_email"⟩ w

/-- Parameters of `extract_email_context`. -/
structure ExtractContextParams where
  messageId : String
  threadId : Option String
  maxHistoryMessages : Option Nat
deriving DecidableEq

/-- JavaScript `n || d` on a possibly-undefined number: `0` is falsy. -/
def natOr (v : Option Nat) (d : Nat) : Nat :=
  match v with
  | some n => if n = 0 then d else n
  | none => d

/-- The optional thread-data provider of `extractEmailContext`. -/
def ThreadFetchFn : Type :=
  String → Nat → World → Except String (List ThreadMsg) × World

/-- `extractEmailContext`: fetch the email data, fetch the thread history
when both a (truthy) thread id and a provider are present, build the
context-extraction prompt and call the default tier.  Results are never
cached. -/
def extractEmailContext (env : Env) (vendor : VendorFn ContextExtractionResult)
    (params : ExtractContextParams) (getEmailData : FetchFn EmailBodyData)
    (getThreadData : Option ThreadFetchFn) (w : World) :
    Except String ContextExtractionResult × World :=
  match getEmailData params.messageId w with
  | (.error e, w) => (.error e, w)
  | (.ok emailData, w) =>
    let step : Except String (Option (List ThreadMsg)) × World :=
      match params.threadId, getThreadData with
      | some tid, some gtd =>
        if tid = "" then (.ok none, w)
        else
          match gtd tid (natOr params.maxHistoryMessages 10) w with
          | (.error e, w) => (.error e, w)
          | (.ok hist, w) => (.ok (some hist), w)
      | _, _ => (.ok none, w)
    match step with
    | (.error e, w) => (.error e, w)
    | (.ok threadHistory, w) =>
      let sp := getContextExtractionPrompt
        ⟨emailData.fromAddr, emailData.subject, emailData.body, threadHistory⟩
      match generateStructuredOutput env vendor
          ⟨sp.prompt, sp.system, Tier.default, "extract_context"⟩ w with
      | (.error e, w) => (.error e, w)
      | (.ok result, w) => (.ok result, w)

/-! ## Batch orchestrator (`batchAnalyzeEmails` in src/ai-tools.ts) -/

/-- The `analysisTypes` enumeration of `BatchAnalyzeEmailsSchema`. -/
inductive AnalysisType
  | categorize
  | context
  | cold_detection
deriving DecidableEq, BEq

/-- The `options` object after zod parsing: inside a provided options
object, `autoApplyLabels` defaults to `false` and `generateSummary` to
`true`. -/
structure BatchOptions where
  autoApplyLabels : Bool
  generateSummary : Bool
deriving DecidableEq

/-- The parsed argument record of `batchAnalyzeEmails`
(`z.infer<typeof BatchAnalyzeEmailsSchema>`): `options` stays `undefined`
when the caller omitted the whole object. -/
structure BatchParams where
  messageIds : List String
  analysisTypes : List AnalysisType
  options : Option BatchOptions
deriving DecidableEq

/-- The `options` object as written by the caller, before zod defaults. -/
structure BatchOptionsInput where
  autoApplyLabels : Option Bool
  generateSummary : Option Bool
deriving DecidableEq

/-- A `batch_analyze_emails` request as written by the caller, before zod
validation. -/
structure BatchInput where
  messageIds : List String
  analysisTypes : List AnalysisType
  options : Option BatchOptionsInput
deriving DecidableEq

/-- `BatchAnalyzeEmailsSchema.parse`: rejects more than 50 message ids
(`z.array(z.string()).max(50)`) and applies the option defaults inside a
provided options object; an omitted options object stays absent. -/
def parseBatchAnalyzeEmails (raw : BatchInput) : Except String BatchParams :=
  if raw.messageIds.length > 50 then
    .error "Array must contain at most 50 element(s)"
  else
    .ok { messageIds := raw.messageIds,
          analysisTypes := raw.analysisTypes,
          options := raw.options.map fun o =>
            { autoApplyLabels := o.autoApplyLabels.getD false,
              generateSummary := o.generateSummary.getD true } }

/-- One element of the batch `results` array. -/
structure ItemResult where
  messageId : String
  category : Option CategorizationResult := none
  context : Option ContextExtractionResult := none
  coldDetection : Option ColdEmailResult := none
deriving DecidableEq

/-- One element of the batch `recommendedActions` array. -/
structure RecommendedAction where
  messageId : String
  action : String
  reasoning : String
deriving DecidableEq

/-- The return shape of `batchAnalyzeEmails`. -/
structure BatchOutcome where
  results : List ItemResult
  summary : String
  recommendedActions : List RecommendedAction
deriving DecidableEq

/-- JavaScript truthiness of `emailData.body` (`undefined` and `""` are
falsy): the guard on the context and cold-detection steps. -/
def bodyTruthy : Option String → Bool
  | some b => b ≠ ""
  | none => false

/-- The `{from, subject, snippet}` view of batch email data handed to
`categorizeEmail` (structural subtyping in the source). -/
def EmailFullData.toSnippet (d : EmailFullData) : EmailSnippetData :=
  ⟨d.fromAddr, d.subject, d.snippet⟩

/-- The `{from, subject, body: emailData.body!}` view handed to
`extractEmailContext` and `detectColdEmail` inside the batch loop (only
built under the `emailData.body` truthiness guard). -/
def EmailFullData.toBody (d : EmailFullData) : EmailBodyData :=
  ⟨d.fromAddr, d.subject, d.body.getD ""⟩

/-- The body of the `for` loop of `batchAnalyzeEmails`, for one message id:
fetch the email once, then run each requested analysis whose prerequisites
hold, handing the façades a constant callback that returns the
already-fetched data.  Any error is caught: the per-item record is dropped
(`none`) and the state reached so far is kept. -/
def batchProcessOne (env : Env) (vCat : VendorFn CategorizationResult)
    (vCtx : VendorFn ContextExtractionResult) (vCold : VendorFn ColdEmailResult)
    (getEmailData : FetchFn EmailFullData) (types : List AnalysisType)
    (messageId : String) (w : World) : Option ItemResult × World :=
  match getEmailData messageId w with
  | (.error _, w) => (none, w)
  | (.ok emailData, w) =>
    let catStep : Except String (Option CategorizationResult) × World :=
      if types.contains AnalysisType.categorize then
        match categorizeEmail env vCat { messageId := messageId, categories := none }
            (constFetch emailData.toSnippet) w with
        | (.error e, w) => (.error e, w)
        | (.ok r, w) => (.ok (some r), w)
      else (.ok none, w)
    match catStep with
    | (.error _, w) => (none, w)
    | (.ok category, w) =>
      let ctxStep : Except String (Option ContextExtractionResult) × World :=
        if types.contains AnalysisType.context && bodyTruthy emailData.body then
          match extractEmailContext env vCtx
              { messageId := messageId, threadId := none, maxHistoryMessages := some 10 }
              (constFetch emailData.toBody) none w with
          | (.error e, w) => (.error e, w)
          | (.ok r, w) => (.ok (some r), w)
        else (.ok none, w)
      match ctxStep with
      | (.error _, w) => (none, w)
      | (.ok context, w) =>
        let coldStep : Except String (Option ColdEmailResult) × World :=
          if types.contains AnalysisType.cold_detection && bodyTruthy emailData.body then
            match detectColdEmail env vCold { messageId := messageId, userProfile := none }
                (constFetch emailData.toBody) w with
            | (.error e, w) => (.error e, w)
            | (.ok r, w) => (.ok (some r), w)
          else (.ok none, w)
        match coldStep with
        | (.error _, w) => (none, w)
        | (.ok coldDetection, w) =>
          (some { messageId := messageId, category := category,
                  context := context, coldDetection := coldDetection }, w)

/-- The `for (const messageId of params.messageIds)` loop: successful item
records are pushed in input order, failed items are skipped. -/
def batchLoop (env : Env) (vCat : VendorFn CategorizationResult)
    (vCtx : VendorFn ContextExtractionResult) (vCold : VendorFn ColdEmailResult)
    (getEmailData : FetchFn EmailFullData) (types : List AnalysisType) :
    List String → World → List ItemResult × World
  | [], w => ([], w)
  | id :: rest, w =>
    match batchProcessOne env vCat vCtx vCold getEmailData types id w with
    | (r, w) =>
      match batchLoop env vCat vCtx vCold getEmailData types rest w with
      | (rs, w) =>
        match r with
        | some r => (r :: rs, w)
        | none => (rs, w)

/-- `categoryCount[cat] = (categoryCount[cat] || 0) + 1` over a record whose
`Object.entries` order is key insertion order. -/
def bumpCount : List (String × Nat) → String → List (String × Nat)
  | [], k => [(k, 1)]
  | (k', n) :: rest, k =>
    if k' = k then (k', n + 1) :: rest else (k', n) :: bumpCount rest k

/-- The `categoryCount` tally across successfully categorized items. -/
def buildCategoryCounts (results : List ItemResult) : List (String × Nat) :=
  results.foldl
    (fun acc r =>
      match r.category with
      | some c => bumpCount acc (catName c.category)
      | none => acc)
    []

/-- The number of items whose cold detection flagged a cold email. -/
def coldEmailCount (results : List ItemResult) : Nat :=
  (results.filter fun r =>
    match r.coldDetection with
    | some c => c.isColdEmail
    | none => false).length

/-- The summary text built when `generateSummary` is enabled. -/
def buildSummary (results : List ItemResult) : String :=
  let base := "Analyzed " ++ toString results.length ++ " emails:\n"
  let withCats := (buildCategoryCounts results).foldl
    (fun s kv => s ++ "- " ++ kv.1 ++ ": " ++ toString kv.2 ++ "\n") base
  if coldEmailCount results > 0 then
    withCats ++ "\n" ++ toString (coldEmailCount results) ++ " cold emails detected"
  else withCats

/-- The `recommendedActions` derivation: one entry per item flagged as a
cold email whose suggested action is not `ALLOW`. -/
def buildRecommendedActions (results : List ItemResult) : List RecommendedAction :=
  results.filterMap fun r =>
    match r.coldDetection with
    | some c =>
      if c.isColdEmail && !(c.suggestedAction == SuggestedAction.ALLOW) then
        some { messageId := r.messageId,
               action := actionName c.suggestedAction,
               reasoning := "Cold " ++ coldTypeName c.coldEmailType
                 ++ " email: " ++ c.reasoning }
      else none
    | none => none

/-- `batchAnalyzeEmails`: run the loop, then build the summary and
recommendations only when `params.options?.generateSummary` is truthy
(an omitted options object leaves it falsy).  The whole body is wrapped so
that the call itself never throws. -/
def batchAnalyzeEmails (env : Env) (vCat : VendorFn CategorizationResult)
    (vCtx : VendorFn ContextExtractionResult) (vCold : VendorFn ColdEmailResult)
    (params : BatchParams) (getEmailData : FetchFn EmailFullData) (w : World) :
    BatchOutcome × World :=
  match batchLoop env vCat vCtx vCold getEmailData params.analysisTypes
      params.messageIds w with
  | (results, w) =>
    let genSummary :=
      match params.options with
      | some o => o.generateSummary
      | none => false
    if genSummary then
      ({ results := results, summary := buildSummary results,
         recommendedActions := buildRecommendedActions results }, w)
    else
      ({ results := results, summary := "", recommendedActions := [] }, w)

/-- Modelled from the spec: the MCP tool boundary validates a
`batch_analyze_emails` request against `BatchAnalyzeEmailsSchema` before the
handler runs, so that "a request with 51 message identifiers is rejected
before any vendor call is made"; the server glue that invokes the schema's
`parse` is not among the provided sources, only the schema itself is. -/
def batchAnalyzeEmailsTool (env : Env) (vCat : VendorFn CategorizationResult)
    (vCtx : VendorFn ContextExtractionResult) (vCold : VendorFn ColdEmailResult)
    (raw : BatchInput) (getEmailData : FetchFn EmailFullData) (w : World) :
    Except String BatchOutcome × World :=
  match parseBatchAnalyzeEmails raw with
  | .error e => (.error e, w)
  | .ok params =>
    match batchAnalyzeEmails env vCat vCtx vCold params getEmailData w with
    | (out, w) => (.ok out, w)

/-- Decidable equality of `Except` results, so that concrete façade
outcomes can be evaluated by `decide`. -/
instance {ε α : Type} [DecidableEq ε] [DecidableEq α] : DecidableEq (Except ε α)
  | .error a, .error b =>
    if h : a = b then .isTrue (h ▸ rfl)
    else .isFalse (fun hh => h (Except.error.inj hh))
  | .error _, .ok _ => .isFalse Except.noConfusion
  | .ok _, .error _ => .isFalse Except.noConfusion
  | .ok a, .ok b =>
    if h : a = b then .isTrue (h ▸ rfl)
    else .isFalse (fun hh => h (Except.ok.inj hh))

/-! ## Concrete fixtures (mock environment, vendors and email providers)
used by the witness and counterexample theorems -/

/-- A well-formed environment: Anthropic for both tiers, with a key. -/
def testEnv : Env :=
  { LLM_PROVIDER := some "anthropic", ECONOMY_LLM_PROVIDER := none,
    LLM_MODEL := none, ECONOMY_LLM_MODEL := none,
    ANTHROPIC_API_KEY := some "sk-test-key", OPENAI_API_KEY := none,
    GOOGLE_AI_API_KEY := none }

/-- An environment with no variables set at all. -/
def envNoKeys : Env :=
  { LLM_PROVIDER := none, ECONOMY_LLM_PROVIDER := none,
    LLM_MODEL := none, ECONOMY_LLM_MODEL := none,
    ANTHROPIC_API_KEY := none, OPENAI_API_KEY := none,
    GOOGLE_AI_API_KEY := none }

/-- Fresh process state: empty cache, empty tracker, clock at zero. -/
def emptyWorld : World :=
  { cache := llmCacheInit CachedValue, tracker := [], events := [], now := 0 }

/-- A deterministic mock categorization vendor with constant output. -/
def mockVendorCat : VendorFn CategorizationResult :=
  fun _ _ => .ok ({ category := Category.WORK, confidence := 1,
                    reasoning := "mock", suggestedLabels := none }, some (10, 5))

/-- A deterministic mock context-extraction vendor with constant output. -/
def mockVendorCtx : VendorFn ContextExtractionResult :=
  fun _ _ => .ok ({ summary := "s", keyPoints := [], actionItems := [],
                    people := [], dates := [], relevantContext := "c",
                    confidence := 1 }, none)

/-- A deterministic mock cold-detection vendor with constant output. -/
def mockVendorCold : VendorFn ColdEmailResult :=
  fun _ _ => .ok ({ isColdEmail := true, coldEmailType := ColdEmailType.SALES,
                    confidence := 1, reasoning := "mock",
                    suggestedAction := SuggestedAction.REVIEW }, some (8, 4))

/-- A deterministic mock cold-detection vendor whose reasoning field echoes
the prompt it was sent, so that results distinguish their inputs. -/
def echoVendorCold : VendorFn ColdEmailResult :=
  fun _ p => .ok ({ isColdEmail := true, coldEmailType := ColdEmailType.SALES,
                    confidence := 1, reasoning := p.prompt,
                    suggestedAction := SuggestedAction.REVIEW }, none)

/-- A cold-detection vendor that always throws. -/
def failVendorCold : VendorFn ColdEmailResult :=
  fun _ _ => .error "provider down"

/-- The constant mock result of `mockVendorCat`. -/
def mockCatResult : CategorizationResult :=
  { category := Category.WORK, confidence := 1, reasoning := "mock",
    suggestedLabels := none }

/-- The constant mock result of `mockVendorCold`. -/
def mockColdResult : ColdEmailResult :=
  { isColdEmail := true, coldEmailType := ColdEmailType.SALES,
    confidence := 1, reasoning := "mock",
    suggestedAction := SuggestedAction.REVIEW }

/-- A batch email-data table on which message `m3` fails to fetch. -/
def batchFetchTbl : String → Except String EmailFullData :=
  fun id =>
    if id = "m3" then .error "Message not found"
    else .ok { fromAddr := "alice@example.com", subject := "hello",
               snippet := "snippet", body := some "full body" }

/-- An email-data provider that always throws (used to show a call path on
which the provider is never consulted). -/
def failSnippetTbl : String → Except String EmailSnippetData :=
  fun _ => .error "fetch must not happen"

/-- A cached categorization result planted in `categorizeHitWorld`. -/
def cachedCatResult : CategorizationResult :=
  { category := Category.PERSONAL, confidence := 1, reasoning := "cached",
    suggestedLabels := none }

/-- A world whose cache already holds a categorization verdict for
message `m1`. -/
def categorizeHitWorld : World :=
  { cache := { store := fun k =>
                 if k = "categorize:m1" then
                   some ⟨CachedValue.categorization cachedCatResult, 0⟩
                 else none,
               ttl := 60 * 60 * 1000 },
    tracker := [], events := [], now := 0 }

/-- First message of the same-sender pair: sender `sales@vendor.com`,
body one. -/
def coldMailA : EmailBodyData :=
  { fromAddr := "sales@vendor.com", subject := "Quick chat?",
    body := "I noticed your company body one" }

/-- Second message of the same-sender pair: same sender, different body. -/
def coldMailB : EmailBodyData :=
  { fromAddr := "sales@vendor.com", subject := "Following up",
    body := "completely different body two" }

/-- The state after one cold-detection call on `coldMailA` with the echoing
vendor, which populates the sender-keyed cache entry. -/
def coldWorldA : World :=
  (detectColdEmail testEnv echoVendorCold { messageId := "m1", userProfile := none }
    (constFetch coldMailA) emptyWorld).2

/-- The batch email-data provider built over `batchFetchTbl`. -/
def goodFetch : FetchFn EmailFullData := loggingFetch batchFetchTbl

/-- The email data `batchFetchTbl` returns for every message except `m3`. -/
def batchMailData : EmailFullData :=
  { fromAddr := "alice@example.com", subject := "hello",
    snippet := "snippet", body := some "full body" }

/-! # Theorems -/

/-! ## C2 — cache TTL semantics -/

/--
C2 (counterexample).  The claim says an entry whose age has *reached* the
TTL is treated as absent.  The code expires an entry only when
`now - timestamp > ttl`, so at age exactly equal to the TTL the entry is
still returned: `set` at time 0 followed by `get` at exactly one TTL later
returns the value, not absent.
-/
theorem cache_visible_at_exact_ttl :
    (((llmCacheInit Nat).set "k" 7 0).get "k" (60 * 60 * 1000)).1 = some 7
    ∧ (((llmCacheInit Nat).set "k" 7 0).get "k" (60 * 60 * 1000)).1 ≠ none := by
  constructor
  · decide
  · decide

/--
C2 (amended).  For every key `k` and value `v`, `set(k,v)` followed by
`get(k)` returns `v` while `now − createdAt ≤ ttl`; an entry whose age
*strictly exceeds* the TTL is treated as absent by `get`, evicted from the
store as a side effect of that `get`, and never returned by any subsequent
`get`.
-/
theorem cache_ttl_boundary {α : Type} (c : LLMCache α) (k : String) (v : α)
    (t now now2 : Nat) :
    (now - t ≤ c.ttl → ((c.set k v t).get k now).1 = some v)
    ∧ (now - t > c.ttl →
        ((c.set k v t).get k now).1 = none
        ∧ ((((c.set k v t).get k now).2).get k now2).1 = none) := by
  constructor
  · intro h
    simp [LLMCache.set, LLMCache.get, Nat.not_lt.mpr h]
  · intro h
    constructor
    · simp [LLMCache.set, LLMCache.get, h]
    · simp [LLMCache.set, LLMCache.get, h]

/--
C2 (witness for `cache_ttl_boundary`): a concrete `set`/`get` within the
TTL returns the value, and one past the TTL is absent, evicted, and not
resurrected by a later `get`.
-/
theorem cache_ttl_boundary_witness :
    ((((llmCacheInit Nat).set "k" 7 0).get "k" 3600000).1 = some 7)
    ∧ ((((llmCacheInit Nat).set "k" 7 0).get "k" 3600001).1 = none
       ∧ (((((llmCacheInit Nat).set "k" 7 0).get "k" 3600001).2).get "k" 9999999).1 = none) :=
  ⟨(cache_ttl_boundary (llmCacheInit Nat) "k" 7 0 3600000 0).1 (by decide),
   (cache_ttl_boundary (llmCacheInit Nat) "k" 7 0 3600001 9999999).2 (by decide)⟩

/-! ## C5 — batch size bound -/

/--
C5.  Every `batch_analyze_emails` request with more than 50 message
identifiers is rejected by schema validation before the handler runs: the
tool call returns the validation error and leaves the world — cache,
tracker and event log, hence also any vendor call or per-item processing —
untouched.
-/
theorem batch_size_rejected (env : Env) (vCat : VendorFn CategorizationResult)
    (vCtx : VendorFn ContextExtractionResult) (vCold : VendorFn ColdEmailResult)
    (raw : BatchInput) (fetch : FetchFn EmailFullData) (w : World)
    (h : raw.messageIds.length > 50) :
    batchAnalyzeEmailsTool env vCat vCtx vCold raw fetch w
      = (.error "Array must contain at most 50 element(s)", w) := by
  simp [batchAnalyzeEmailsTool, parseBatchAnalyzeEmails, h]

/--
C5 (witness): a concrete request with 51 message identifiers is rejected
with the world unchanged.
-/
theorem batch_size_rejected_witness :
    batchAnalyzeEmailsTool testEnv mockVendorCat mockVendorCtx mockVendorCold
      ⟨List.replicate 51 "m", [AnalysisType.categorize], none⟩ goodFetch emptyWorld
      = (.error "Array must contain at most 50 element(s)", emptyWorld) :=
  batch_size_rejected testEnv mockVendorCat mockVendorCtx mockVendorCold
    ⟨List.replicate 51 "m", [AnalysisType.categorize], none⟩ goodFetch emptyWorld
    (by decide)

/-! ## C8 — built-in tier model identifiers -/

/--
C8 (counterexample).  The claim says the built-in default-tier model and
economy-tier model are distinct strings for *every* supported vendor, but
for the `google` vendor both built-ins are the same string
`gemini-2.0-flash-exp`.
-/
theorem google_tier_models_equal :
    getDefaultModelForProvider "google" = "gemini-2.0-flash-exp"
    ∧ getEconomyModelForProvider "google" = "gemini-2.0-flash-exp"
    ∧ getDefaultModelForProvider "google" = getEconomyModelForProvider "google" := by
  refine ⟨by decide, by decide, by decide⟩

/--
C8 (amended).  With no explicit model override, the vendor-specific
built-in default-tier and economy-tier model identifiers are distinct for
the `anthropic` and `openai` vendors, but coincide for the `google`
vendor.
-/
theorem tier_models_distinct_except_google :
    getDefaultModelForProvider "anthropic" ≠ getEconomyModelForProvider "anthropic"
    ∧ getDefaultModelForProvider "openai" ≠ getEconomyModelForProvider "openai"
    ∧ getDefaultModelForProvider "google" = getEconomyModelForProvider "google" := by
  refine ⟨by decide, by decide, by decide⟩

/-! ## C6 — generateSummary default -/

/--
C6 (counterexample).  The claim says that when the `options` argument is
omitted, the summary and recommended actions are generated exactly as when
`generateSummary` is explicitly enabled.  In the code,
`params.options?.generateSummary` is undefined — hence falsy — when
`options` is omitted, so no summary and no recommendations are produced,
while the identical call with `generateSummary: true` produces both.
-/
theorem summary_omitted_options_differs :
    ((batchAnalyzeEmails testEnv mockVendorCat mockVendorCtx mockVendorCold
        ⟨["m1"], [AnalysisType.categorize, AnalysisType.cold_detection], none⟩
        goodFetch emptyWorld).1.summary = ""
     ∧ (batchAnalyzeEmails testEnv mockVendorCat mockVendorCtx mockVendorCold
        ⟨["m1"], [AnalysisType.categorize, AnalysisType.cold_detection], none⟩
        goodFetch emptyWorld).1.recommendedActions = [])
    ∧ ((batchAnalyzeEmails testEnv mockVendorCat mockVendorCtx mockVendorCold
        ⟨["m1"], [AnalysisType.categorize, AnalysisType.cold_detection],
         some ⟨false, true⟩⟩ goodFetch emptyWorld).1.summary
        = "Analyzed 1 emails:\n- WORK: 1\n\n1 cold emails detected"
     ∧ (batchAnalyzeEmails testEnv mockVendorCat mockVendorCtx mockVendorCold
        ⟨["m1"], [AnalysisType.categorize, AnalysisType.cold_detection],
         some ⟨false, true⟩⟩ goodFetch emptyWorld).1.recommendedActions
        = [⟨"m1", "REVIEW", "Cold SALES email: mock"⟩])
    ∧ ("" : String) ≠ "Analyzed 1 emails:\n- WORK: 1\n\n1 cold emails detected" := by
  refine ⟨⟨by decide, by decide⟩, ⟨by decide, by decide⟩, by decide⟩

/--
C6 (amended).  `generateSummary` defaults to `true` only *inside a provided
options object*: a request whose options omit `generateSummary` parses
identically to one that explicitly enables it.  When the entire `options`
argument is omitted, no summary is generated: `summaryText` is empty and
`recommendedActions` is empty.
-/
theorem summary_option_defaults :
    (∀ (ids : List String) (types : List AnalysisType) (a : Option Bool),
      parseBatchAnalyzeEmails ⟨ids, types, some ⟨a, none⟩⟩
        = parseBatchAnalyzeEmails ⟨ids, types, some ⟨a, some true⟩⟩)
    ∧ (∀ (env : Env) (vCat : VendorFn CategorizationResult)
        (vCtx : VendorFn ContextExtractionResult) (vCold : VendorFn ColdEmailResult)
        (params : BatchParams) (fetch : FetchFn EmailFullData) (w : World),
        params.options = none →
        (batchAnalyzeEmails env vCat vCtx vCold params fetch w).1.summary = ""
        ∧ (batchAnalyzeEmails env vCat vCtx vCold params fetch w).1.recommendedActions = []) := by
  constructor
  · intro ids types a
    simp [parseBatchAnalyzeEmails]
  · intro env vCat vCtx vCold params fetch w h
    unfold batchAnalyzeEmails
    rcases batchLoop env vCat vCtx vCold fetch params.analysisTypes params.messageIds w
      with ⟨results, w1⟩
    simp [h]

/--
C6 (witness for `summary_option_defaults`): a concrete batch call with the
options object omitted yields an empty summary and no recommendations.
-/
theorem summary_option_defaults_witness :
    (batchAnalyzeEmails testEnv mockVendorCat mockVendorCtx mockVendorCold
      ⟨["m1"], [AnalysisType.categorize], none⟩ goodFetch emptyWorld).1.summary = ""
    ∧ (batchAnalyzeEmails testEnv mockVendorCat mockVendorCtx mockVendorCold
      ⟨["m1"], [AnalysisType.categorize], none⟩ goodFetch emptyWorld).1.recommendedActions = [] :=
  summary_option_defaults.2 testEnv mockVendorCat mockVendorCtx mockVendorCold
    ⟨["m1"], [AnalysisType.categorize], none⟩ goodFetch emptyWorld rfl

/-! ## C7 — tier resolution fails fast on missing keys -/

/-- A successful vendor-key lookup never returns the empty string (the
source treats an empty key as missing, by JavaScript truthiness). -/
theorem getApiKeyForProvider_ok_ne_empty (env : Env) (p k : String)
    (h : getApiKeyForProvider env p = .ok k) : k ≠ "" := by
  unfold getApiKeyForProvider at h
  repeat' split at h
  all_goals simp_all

/--
C7.  Tier resolution succeeds iff both the default tier's vendor and the
economy tier's vendor have a usable API key; on success both tier profiles
carry the non-empty key of their vendor; and when resolution fails, the
structured-output invoker fails with the same error synchronously, leaving
the world — in particular the vendor-call event log — untouched, so the
failure surfaces before any inference attempt.
-/
theorem tier_resolution_failfast (env : Env) :
    ((getLLMConfig env).isOk = true ↔
      ((getApiKeyForProvider env (resolvedDefaultProvider env)).isOk = true
       ∧ (getApiKeyForProvider env (resolvedEconomyProvider env)).isOk = true))
    ∧ (∀ t : ModelTier, getLLMConfig env = .ok t →
        t.default.apiKey ≠ "" ∧ t.economy.apiKey ≠ ""
        ∧ getApiKeyForProvider env t.default.provider = .ok t.default.apiKey
        ∧ getApiKeyForProvider env t.economy.provider = .ok t.economy.apiKey)
    ∧ (∀ e : String, getLLMConfig env = .error e →
        ∀ (α : Type) (vendor : VendorFn α) (p : GenParams) (w : World),
          generateStructuredOutput env vendor p w = (.error e, w)) := by
  refine ⟨?_, ?_, ?_⟩
  · simp only [getLLMConfig, resolvedDefaultProvider, resolvedEconomyProvider]
    cases h1 : getApiKeyForProvider env (strOr env.LLM_PROVIDER "anthropic") with
    | error e => simp [h1, Except.isOk, Except.toBool]
    | ok k1 =>
      cases h2 : getApiKeyForProvider env
          (strOr env.ECONOMY_LLM_PROVIDER (strOr env.LLM_PROVIDER "anthropic")) with
      | error e => simp [h1, h2, Except.isOk, Except.toBool]
      | ok k2 => simp [h1, h2, Except.isOk, Except.toBool]
  · intro t h
    simp only [getLLMConfig] at h
    cases h1 : getApiKeyForProvider env (strOr env.LLM_PROVIDER "anthropic") with
    | error e => rw [h1] at h; simp at h
    | ok k1 =>
      rw [h1] at h
      cases h2 : getApiKeyForProvider env
          (strOr env.ECONOMY_LLM_PROVIDER (strOr env.LLM_PROVIDER "anthropic")) with
      | error e => rw [h2] at h; simp at h
      | ok k2 =>
        rw [h2] at h
        simp only [Except.ok.injEq] at h
        subst h
        exact ⟨getApiKeyForProvider_ok_ne_empty env _ k1 h1,
               getApiKeyForProvider_ok_ne_empty env _ k2 h2, h1, h2⟩
  · intro e h α vendor p w
    simp [generateStructuredOutput, h]

/--
C7 (witness for `tier_resolution_failfast`): with no keys in the
environment, a structured-output call fails with the missing-key
configuration error and performs no vendor call.
-/
theorem tier_resolution_failfast_witness :
    generateStructuredOutput envNoKeys mockVendorCat
      ⟨"p", "s", Tier.economy, "op"⟩ emptyWorld
      = (.error "ANTHROPIC_API_KEY environment variable is required for Anthropic provider",
         emptyWorld) :=
  (tier_resolution_failfast envNoKeys).2.2
    "ANTHROPIC_API_KEY environment variable is required for Anthropic provider"
    (by decide) CategorizationResult mockVendorCat ⟨"p", "s", Tier.economy, "op"⟩ emptyWorld

/-! ## C1 — per-item isolation in the batch orchestrator -/

/-- A successful per-item record carries the message identifier it was
built for. -/
theorem batchProcessOne_messageId {env : Env} {vCat : VendorFn CategorizationResult}
    {vCtx : VendorFn ContextExtractionResult} {vCold : VendorFn ColdEmailResult}
    {fetch : FetchFn EmailFullData} {types : List AnalysisType} {id : String}
    {w : World} {r : ItemResult} {w2 : World}
    (h : batchProcessOne env vCat vCtx vCold fetch types id w = (some r, w2)) :
    r.messageId = id := by
  unfold batchProcessOne at h
  repeat' split at h
  all_goals try simp_all
  all_goals (repeat' split at h)
  all_goals try simp_all
  all_goals rw [← h.1]

/-- The identifiers of the records produced by the batch loop form a
sublist of the requested identifiers: no fabricated records, and the input
relative order is preserved. -/
theorem batchLoop_sublist (env : Env) (vCat : VendorFn CategorizationResult)
    (vCtx : VendorFn ContextExtractionResult) (vCold : VendorFn ColdEmailResult)
    (fetch : FetchFn EmailFullData) (types : List AnalysisType) :
    ∀ (ids : List String) (w : World),
      ((batchLoop env vCat vCtx vCold fetch types ids w).1.map
        (fun r => r.messageId)).Sublist ids := by
  intro ids
  induction ids with
  | nil => intro w; simp [batchLoop]
  | cons id rest ih =>
    intro w
    unfold batchLoop
    rcases h : batchProcessOne env vCat vCtx vCold fetch types id w with ⟨ro, w1⟩
    rcases hl : batchLoop env vCat vCtx vCold fetch types rest w1 with ⟨rs, w2⟩
    cases ro with
    | none =>
      simp only []
      exact List.Sublist.cons id (by simpa [hl] using ih w1)
    | some r =>
      have hid : r.messageId = id := batchProcessOne_messageId h
      simp only [List.map_cons, hid]
      exact List.Sublist.cons₂ id (by simpa [hl] using ih w1)

/--
C1.  Per-item isolation of `batchAnalyzeEmails`: (1) for every call, the
returned per-item records are a sublist of the requested message
identifiers — each record belongs to a requested identifier and the input
relative order is preserved — and the batch call returns a `BatchOutcome`
without raising (it is a total function into `BatchOutcome × World`);
(2) an identifier whose processing fails contributes no record: the loop on
`id :: rest` continues with `rest` from the state the failed item left
behind; (3) concretely, when the upstream fetch fails for item 3 of 4, the
batch returns the 3 other records, in order, with item 3 absent.
-/
theorem batch_per_item_isolation :
    (∀ (env : Env) (vCat : VendorFn CategorizationResult)
       (vCtx : VendorFn ContextExtractionResult) (vCold : VendorFn ColdEmailResult)
       (params : BatchParams) (fetch : FetchFn EmailFullData) (w : World),
       ((batchAnalyzeEmails env vCat vCtx vCold params fetch w).1.results.map
         (fun r => r.messageId)).Sublist params.messageIds)
    ∧ (∀ (env : Env) (vCat : VendorFn CategorizationResult)
       (vCtx : VendorFn ContextExtractionResult) (vCold : VendorFn ColdEmailResult)
       (fetch : FetchFn EmailFullData) (types : List AnalysisType)
       (id : String) (rest : List String) (w : World),
       (batchProcessOne env vCat vCtx vCold fetch types id w).1 = none →
       batchLoop env vCat vCtx vCold fetch types (id :: rest) w
         = batchLoop env vCat vCtx vCold fetch types rest
             (batchProcessOne env vCat vCtx vCold fetch types id w).2)
    ∧ ((batchAnalyzeEmails testEnv mockVendorCat mockVendorCtx mockVendorCold
          ⟨["m1", "m2", "m3", "m4"], [AnalysisType.categorize], some ⟨false, true⟩⟩
          goodFetch emptyWorld).1.results.map (fun r => r.messageId)
        = ["m1", "m2", "m4"]) := by
  refine ⟨?_, ?_, ?_⟩
  · intro env vCat vCtx vCold params fetch w
    have hs := batchLoop_sublist env vCat vCtx vCold fetch params.analysisTypes params.messageIds w
    unfold batchAnalyzeEmails
    rcases hl : batchLoop env vCat vCtx vCold fetch params.analysisTypes params.messageIds w
      with ⟨results, w1⟩
    rw [hl] at hs
    simp only []
    split <;> simpa using hs
  · intro env vCat vCtx vCold fetch types id rest w h
    rcases hp : batchProcessOne env vCat vCtx vCold fetch types id w with ⟨ro, w1⟩
    rw [hp] at h
    simp only at h
    subst h
    conv_lhs => rw [batchLoop]
    rw [hp]
  · decide

/--
C1 (witness for `batch_per_item_isolation`): processing a concrete batch
whose first remaining identifier fails to fetch drops that identifier and
continues from the state it left.
-/
theorem batch_per_item_isolation_witness :
    batchLoop testEnv mockVendorCat mockVendorCtx mockVendorCold goodFetch
      [AnalysisType.categorize] ["m3", "m4"] emptyWorld
      = batchLoop testEnv mockVendorCat mockVendorCtx mockVendorCold goodFetch
          [AnalysisType.categorize] ["m4"]
          (batchProcessOne testEnv mockVendorCat mockVendorCtx mockVendorCold goodFetch
            [AnalysisType.categorize] "m3" emptyWorld).2 :=
  batch_per_item_isolation.2.1 testEnv mockVendorCat mockVendorCtx mockVendorCold goodFetch
    [AnalysisType.categorize] "m3" ["m4"] emptyWorld (by decide)


/-! ## Shared state lemmas for the invoker and the caching façades -/

/-- Full frame characterization of one `generateStructuredOutput` call: it
never touches the cache or the clock, only appends to the event log, leaves
the tracker unchanged on failure, and on success has logged exactly one
vendor-call event. -/
theorem generateStructuredOutput_cases {α : Type} (env : Env) (vendor : VendorFn α)
    (p : GenParams) (w : World) :
    (generateStructuredOutput env vendor p w).2.cache = w.cache
    ∧ (generateStructuredOutput env vendor p w).2.now = w.now
    ∧ (∃ evs, (generateStructuredOutput env vendor p w).2.events = w.events ++ evs)
    ∧ (∀ e, (generateStructuredOutput env vendor p w).1 = .error e →
        (generateStructuredOutput env vendor p w).2.tracker = w.tracker)
    ∧ (∀ r, (generateStructuredOutput env vendor p w).1 = .ok r →
        (generateStructuredOutput env vendor p w).2.events
          = w.events ++ [Event.vendorCall p.operation]) := by
  unfold generateStructuredOutput
  cases hc : getLLMConfig env with
  | error e =>
    exact ⟨rfl, rfl, ⟨[], by simp⟩, fun _ _ => rfl, fun r hr => absurd hr (by simp)⟩
  | ok config =>
    simp only []
    by_cases hkp : knownProvider
      (if p.tier = Tier.economy then config.economy else config.default).provider = true
    · rw [if_pos hkp]
      cases hv : vendor (if p.tier = Tier.economy then config.economy else config.default) p with
      | error e =>
        exact ⟨rfl, rfl, ⟨[Event.vendorCall p.operation], rfl⟩,
               fun _ _ => rfl, fun r hr => absurd hr (by simp)⟩
      | ok ru =>
        rcases ru with ⟨r, usage⟩
        cases usage with
        | none =>
          exact ⟨rfl, rfl, ⟨[Event.vendorCall p.operation], rfl⟩,
                 fun e he => absurd he (by simp), fun _ _ => rfl⟩
        | some u =>
          rcases u with ⟨it, ot⟩
          exact ⟨rfl, rfl, ⟨[Event.vendorCall p.operation], rfl⟩,
                 fun e he => absurd he (by simp), fun _ _ => rfl⟩
    · rw [if_neg hkp]
      exact ⟨rfl, rfl, ⟨[], by simp⟩, fun _ _ => rfl, fun r hr => absurd hr (by simp)⟩

/-- A successful `cacheMissInvoke` stores the freshly produced value under
its key timestamped now, preserves clock and TTL, and appends exactly a
vendor-call event followed by a cache-write event. -/
theorem cacheMissInvoke_ok {α : Type} {env : Env} {vendor : VendorFn α}
    {mk : α → CachedValue} {key : String} {gp : GenParams} {w : World} {r : α}
    (h : (cacheMissInvoke env vendor mk key gp w).1 = .ok r) :
    (cacheMissInvoke env vendor mk key gp w).2.cache.store key = some ⟨mk r, w.now⟩
    ∧ (cacheMissInvoke env vendor mk key gp w).2.now = w.now
    ∧ (cacheMissInvoke env vendor mk key gp w).2.cache.ttl = w.cache.ttl
    ∧ (cacheMissInvoke env vendor mk key gp w).2.events
        = w.events ++ [Event.vendorCall gp.operation, Event.cacheSet key] := by
  have hcs := generateStructuredOutput_cases env vendor gp w
  unfold cacheMissInvoke at *
  rcases hg : generateStructuredOutput env vendor gp w with ⟨res, w2⟩
  rw [hg] at h hcs
  dsimp only at hcs
  cases res with
  | error e => simp at h
  | ok result =>
    simp only [] at h ⊢
    simp only [Except.ok.injEq] at h
    subst h
    refine ⟨?_, ?_, ?_, ?_⟩
    · simp [World.cacheSet, LLMCache.set, hcs.2.1]
    · simp [World.cacheSet, hcs.2.1]
    · simp [World.cacheSet, LLMCache.set, hcs.1]
    · have := hcs.2.2.2.2 _ rfl
      simp [World.cacheSet, this]

/-- `cacheMissInvoke` leaves every other cache key, the TTL and the clock
unchanged. -/
theorem cacheMissInvoke_frame {α : Type} (env : Env) (vendor : VendorFn α)
    (mk : α → CachedValue) (key : String) (gp : GenParams) (w : World)
    (k : String) (hk : k ≠ key) :
    (cacheMissInvoke env vendor mk key gp w).2.cache.store k = w.cache.store k
    ∧ (cacheMissInvoke env vendor mk key gp w).2.cache.ttl = w.cache.ttl
    ∧ (cacheMissInvoke env vendor mk key gp w).2.now = w.now := by
  have hcs := generateStructuredOutput_cases env vendor gp w
  unfold cacheMissInvoke
  rcases hg : generateStructuredOutput env vendor gp w with ⟨res, w2⟩
  rw [hg] at hcs
  dsimp only at hcs
  cases res with
  | error e => exact ⟨by rw [hcs.1], by rw [hcs.1], hcs.2.1⟩
  | ok result =>
    refine ⟨?_, ?_, ?_⟩
    · simp [World.cacheSet, LLMCache.set, hk, hcs.1]
    · simp [World.cacheSet, LLMCache.set, hcs.1]
    · simp [World.cacheSet, hcs.2.1]

/-- A failed `cacheMissInvoke` never records token usage. -/
theorem cacheMissInvoke_error_tracker {α : Type} {env : Env} {vendor : VendorFn α}
    {mk : α → CachedValue} {key : String} {gp : GenParams} {w : World} {e : String}
    (h : (cacheMissInvoke env vendor mk key gp w).1 = .error e) :
    (cacheMissInvoke env vendor mk key gp w).2.tracker = w.tracker := by
  have hcs := generateStructuredOutput_cases env vendor gp w
  unfold cacheMissInvoke at *
  rcases hg : generateStructuredOutput env vendor gp w with ⟨res, w2⟩
  rw [hg] at h hcs
  dsimp only at hcs
  cases res with
  | error e2 =>
    simp only [] at h ⊢
    exact hcs.2.2.2.1 e2 rfl
  | ok result => simp at h

/-- `cacheMissInvoke` only appends to the event log. -/
theorem cacheMissInvoke_events_append {α : Type} (env : Env) (vendor : VendorFn α)
    (mk : α → CachedValue) (key : String) (gp : GenParams) (w : World) :
    ∃ evs, (cacheMissInvoke env vendor mk key gp w).2.events = w.events ++ evs := by
  have hcs := generateStructuredOutput_cases env vendor gp w
  unfold cacheMissInvoke
  rcases hg : generateStructuredOutput env vendor gp w with ⟨res, w2⟩
  rw [hg] at hcs
  dsimp only at hcs
  cases res with
  | error e =>
    obtain ⟨evs, he⟩ := hcs.2.2.1
    exact ⟨evs, he⟩
  | ok result =>
    obtain ⟨evs, he⟩ := hcs.2.2.1
    exact ⟨evs ++ [Event.cacheSet key], by simp [World.cacheSet, he]⟩

/-- A cold-detection call whose email provider returns data `d` leaving
state `w1` behaves like the same call on already-fetched data from `w1`. -/
theorem detectColdEmail_fetch_ok {env : Env} {vendor : VendorFn ColdEmailResult}
    {p : DetectColdParams} {f : FetchFn EmailBodyData} {w : World} {d : EmailBodyData}
    {w1 : World} (hf : f p.messageId w = (.ok d, w1)) :
    detectColdEmail env vendor p f w = detectColdEmail env vendor p (constFetch d) w1 := by
  unfold detectColdEmail constFetch
  rw [hf]

/-- A cold-detection call whose email provider throws propagates the error
unchanged. -/
theorem detectColdEmail_fetch_error {env : Env} {vendor : VendorFn ColdEmailResult}
    {p : DetectColdParams} {f : FetchFn EmailBodyData} {w : World} {e : String}
    {w1 : World} (hf : f p.messageId w = (.error e, w1)) :
    detectColdEmail env vendor p f w = (.error e, w1) := by
  unfold detectColdEmail
  rw [hf]

/-- A cold-detection call finding a fresh sender-keyed entry is a pure
cache hit: it returns the cached verdict, logs only the cache read, and
performs no vendor call. -/
theorem detectColdEmail_hit (env : Env) (vendor : VendorFn ColdEmailResult)
    (p : DetectColdParams) (d : EmailBodyData) (w : World) (r : ColdEmailResult) (t : Nat)
    (hs : w.cache.store ("cold:" ++ d.fromAddr) = some ⟨CachedValue.cold r, t⟩)
    (hfr : ¬(w.now - t > w.cache.ttl)) :
    detectColdEmail env vendor p (constFetch d) w
      = (.ok r, { w with events := w.events ++ [Event.cacheGet ("cold:" ++ d.fromAddr)] }) := by
  simp only [detectColdEmail, constFetch, World.cacheGet, LLMCache.get, hs, if_neg hfr]

/-- After any successful cold-detection call, the sender-keyed cache entry
holds exactly the returned verdict and is fresh at the final state. -/
theorem detectColdEmail_ok_cached {env : Env} {vendor : VendorFn ColdEmailResult}
    {p : DetectColdParams} {d : EmailBodyData} {w : World} {r : ColdEmailResult}
    (h : (detectColdEmail env vendor p (constFetch d) w).1 = .ok r) :
    ∃ t, ((detectColdEmail env vendor p (constFetch d) w).2).cache.store ("cold:" ++ d.fromAddr)
          = some ⟨CachedValue.cold r, t⟩
       ∧ ¬(((detectColdEmail env vendor p (constFetch d) w).2).now - t
            > ((detectColdEmail env vendor p (constFetch d) w).2).cache.ttl) := by
  simp only [detectColdEmail, constFetch, World.cacheGet, LLMCache.get] at h ⊢
  cases hs : w.cache.store ("cold:" ++ d.fromAddr) with
  | none =>
    rw [hs] at h
    dsimp only at h ⊢
    obtain ⟨hst, hnow, httl, _⟩ := cacheMissInvoke_ok h
    refine ⟨w.now, ?_, ?_⟩
    · rw [hst]
    · rw [hnow, httl]
      simp
  | some entry =>
    rcases entry with ⟨cv, t⟩
    rw [hs] at h
    dsimp only at h ⊢
    by_cases hexp : w.now - t > w.cache.ttl
    · rw [if_pos hexp] at h ⊢
      dsimp only at h ⊢
      obtain ⟨hst, hnow, httl, _⟩ := cacheMissInvoke_ok h
      refine ⟨w.now, ?_, ?_⟩
      · rw [hst]
      · rw [hnow, httl]
        simp
    · rw [if_neg hexp] at h ⊢
      cases cv with
      | cold r2 =>
        dsimp only at h ⊢
        simp only [Except.ok.injEq] at h
        subst h
        exact ⟨t, hs, hexp⟩
      | categorization r2 =>
        dsimp only at h ⊢
        obtain ⟨hst, hnow, httl, _⟩ := cacheMissInvoke_ok h
        refine ⟨w.now, ?_, ?_⟩
        · rw [hst]
        · rw [hnow, httl]
          simp

/-- A cold-detection call that misses a fresh sender-keyed entry and
succeeds performs exactly one vendor call and writes the entry, preserving
clock and TTL. -/
theorem detectColdEmail_miss_ok {env : Env} {vendor : VendorFn ColdEmailResult}
    {p : DetectColdParams} {d : EmailBodyData} {w : World} {r : ColdEmailResult}
    (hs : w.cache.store ("cold:" ++ d.fromAddr) = none)
    (h : (detectColdEmail env vendor p (constFetch d) w).1 = .ok r) :
    (detectColdEmail env vendor p (constFetch d) w).2.events
      = w.events ++ [Event.cacheGet ("cold:" ++ d.fromAddr),
                     Event.vendorCall "detect_cold_email",
                     Event.cacheSet ("cold:" ++ d.fromAddr)]
    ∧ (detectColdEmail env vendor p (constFetch d) w).2.now = w.now
    ∧ (detectColdEmail env vendor p (constFetch d) w).2.cache.ttl = w.cache.ttl
    ∧ (detectColdEmail env vendor p (constFetch d) w).2.cache.store ("cold:" ++ d.fromAddr)
        = some ⟨CachedValue.cold r, w.now⟩ := by
  simp only [detectColdEmail, constFetch, World.cacheGet, LLMCache.get] at h ⊢
  rw [hs] at h ⊢
  dsimp only at h ⊢
  obtain ⟨hst, hnow, httl, hev⟩ := cacheMissInvoke_ok h
  refine ⟨?_, ?_, ?_, ?_⟩
  · rw [hev]
    simp
  · rw [hnow]
  · rw [httl]
  · rw [hst]

/-- Every cold-detection call on already-fetched data logs the sender-keyed
cache read as its first event. -/
theorem detectColdEmail_const_events (env : Env) (vendor : VendorFn ColdEmailResult)
    (p : DetectColdParams) (d : EmailBodyData) (w : World) :
    ∃ rest, (detectColdEmail env vendor p (constFetch d) w).2.events
      = w.events ++ Event.cacheGet ("cold:" ++ d.fromAddr) :: rest := by
  simp only [detectColdEmail, constFetch, World.cacheGet, LLMCache.get]
  cases hs : w.cache.store ("cold:" ++ d.fromAddr) with
  | none =>
    dsimp only
    obtain ⟨evs, he⟩ := cacheMissInvoke_events_append env vendor CachedValue.cold
      ("cold:" ++ d.fromAddr)
      ⟨(getColdEmailPrompt ⟨d.fromAddr, d.subject, d.body, p.userProfile⟩).prompt,
       (getColdEmailPrompt ⟨d.fromAddr, d.subject, d.body, p.userProfile⟩).system,
       Tier.economy, "detect_cold_email"⟩
      { w with events := w.events ++ [Event.cacheGet ("cold:" ++ d.fromAddr)] }
    exact ⟨evs, by rw [he]; simp⟩
  | some entry =>
    rcases entry with ⟨cv, t⟩
    dsimp only
    by_cases hexp : w.now - t > w.cache.ttl
    · rw [if_pos hexp]
      dsimp only
      obtain ⟨evs, he⟩ := cacheMissInvoke_events_append env vendor CachedValue.cold
        ("cold:" ++ d.fromAddr)
        ⟨(getColdEmailPrompt ⟨d.fromAddr, d.subject, d.body, p.userProfile⟩).prompt,
         (getColdEmailPrompt ⟨d.fromAddr, d.subject, d.body, p.userProfile⟩).system,
         Tier.economy, "detect_cold_email"⟩
        { w with
            cache := { store := fun k => if k = "cold:" ++ d.fromAddr then none
                                         else w.cache.store k,
                       ttl := w.cache.ttl },
            events := w.events ++ [Event.cacheGet ("cold:" ++ d.fromAddr)] }
      exact ⟨evs, by rw [he]; simp⟩
    · rw [if_neg hexp]
      cases cv with
      | cold r2 => exact ⟨[], by simp⟩
      | categorization r2 =>
        dsimp only
        obtain ⟨evs, he⟩ := cacheMissInvoke_events_append env vendor CachedValue.cold
          ("cold:" ++ d.fromAddr)
          ⟨(getColdEmailPrompt ⟨d.fromAddr, d.subject, d.body, p.userProfile⟩).prompt,
           (getColdEmailPrompt ⟨d.fromAddr, d.subject, d.body, p.userProfile⟩).system,
           Tier.economy, "detect_cold_email"⟩
          { w with events := w.events ++ [Event.cacheGet ("cold:" ++ d.fromAddr)] }
        exact ⟨evs, by rw [he]; simp⟩

/-- A categorization call finding a fresh message-keyed entry is a pure
cache hit: it returns the cached verdict, logs only the cache read, and
never invokes its email provider or the vendor. -/
theorem categorizeEmail_hit (env : Env) (vendor : VendorFn CategorizationResult)
    (p : CategorizeParams) (f : FetchFn EmailSnippetData) (w : World)
    (r : CategorizationResult) (t : Nat)
    (hs : w.cache.store ("categorize:" ++ p.messageId)
            = some ⟨CachedValue.categorization r, t⟩)
    (hfr : ¬(w.now - t > w.cache.ttl)) :
    categorizeEmail env vendor p f w
      = (.ok r, { w with events := w.events ++ [Event.cacheGet ("categorize:" ++ p.messageId)] }) := by
  simp only [categorizeEmail, World.cacheGet, LLMCache.get, hs, if_neg hfr]

/-- After any successful categorization call, the message-keyed cache entry
holds the returned verdict. -/
theorem categorizeEmail_ok_cached {env : Env} {vendor : VendorFn CategorizationResult}
    {p : CategorizeParams} {f : FetchFn EmailSnippetData} {w : World}
    {r : CategorizationResult}
    (h : (categorizeEmail env vendor p f w).1 = .ok r) :
    ∃ t, ((categorizeEmail env vendor p f w).2).cache.store ("categorize:" ++ p.messageId)
          = some ⟨CachedValue.categorization r, t⟩ := by
  simp only [categorizeEmail, World.cacheGet, LLMCache.get] at h ⊢
  cases hs : w.cache.store ("categorize:" ++ p.messageId) with
  | none =>
    rw [hs] at h
    dsimp only at h ⊢
    rcases hf : f p.messageId
        { w with events := w.events ++ [Event.cacheGet ("categorize:" ++ p.messageId)] }
      with ⟨fres, wf⟩
    rw [hf] at h
    cases fres with
    | error e => simp at h
    | ok d =>
      dsimp only at h ⊢
      obtain ⟨hst, _, _, _⟩ := cacheMissInvoke_ok h
      exact ⟨wf.now, hst⟩
  | some entry =>
    rcases entry with ⟨cv, t⟩
    rw [hs] at h
    dsimp only at h ⊢
    by_cases hexp : w.now - t > w.cache.ttl
    · rw [if_pos hexp] at h ⊢
      dsimp only at h ⊢
      rcases hf : f p.messageId
          { w with
              cache := { store := fun k => if k = "categorize:" ++ p.messageId then none
                                           else w.cache.store k,
                         ttl := w.cache.ttl },
              events := w.events ++ [Event.cacheGet ("categorize:" ++ p.messageId)] }
        with ⟨fres, wf⟩
      rw [hf] at h
      cases fres with
      | error e => simp at h
      | ok d =>
        dsimp only at h ⊢
        obtain ⟨hst, _, _, _⟩ := cacheMissInvoke_ok h
        exact ⟨wf.now, hst⟩
    · rw [if_neg hexp] at h ⊢
      cases cv with
      | categorization r2 =>
        dsimp only at h ⊢
        simp only [Except.ok.injEq] at h
        subst h
        exact ⟨t, hs⟩
      | cold r2 =>
        dsimp only at h ⊢
        rcases hf : f p.messageId
            { w with events := w.events ++ [Event.cacheGet ("categorize:" ++ p.messageId)] }
          with ⟨fres, wf⟩
        rw [hf] at h
        cases fres with
        | error e => simp at h
        | ok d =>
          dsimp only at h ⊢
          obtain ⟨hst, _, _, _⟩ := cacheMissInvoke_ok h
          exact ⟨wf.now, hst⟩

/-- A cold-detection call on already-fetched data never changes cache
entries outside its own sender key. -/
theorem detectColdEmail_const_frame (env : Env) (vendor : VendorFn ColdEmailResult)
    (p : DetectColdParams) (d : EmailBodyData) (w : World) (k : String)
    (hk : k ≠ "cold:" ++ d.fromAddr) :
    (detectColdEmail env vendor p (constFetch d) w).2.cache.store k = w.cache.store k := by
  simp only [detectColdEmail, constFetch, World.cacheGet, LLMCache.get]
  cases hs : w.cache.store ("cold:" ++ d.fromAddr) with
  | none =>
    dsimp only
    exact (cacheMissInvoke_frame env vendor CachedValue.cold ("cold:" ++ d.fromAddr)
      ⟨(getColdEmailPrompt ⟨d.fromAddr, d.subject, d.body, p.userProfile⟩).prompt,
       (getColdEmailPrompt ⟨d.fromAddr, d.subject, d.body, p.userProfile⟩).system,
       Tier.economy, "detect_cold_email"⟩
      { w with events := w.events ++ [Event.cacheGet ("cold:" ++ d.fromAddr)] } k hk).1
  | some entry =>
    rcases entry with ⟨cv, t⟩
    dsimp only
    by_cases hexp : w.now - t > w.cache.ttl
    · rw [if_pos hexp]
      dsimp only
      have := (cacheMissInvoke_frame env vendor CachedValue.cold ("cold:" ++ d.fromAddr)
        ⟨(getColdEmailPrompt ⟨d.fromAddr, d.subject, d.body, p.userProfile⟩).prompt,
         (getColdEmailPrompt ⟨d.fromAddr, d.subject, d.body, p.userProfile⟩).system,
         Tier.economy, "detect_cold_email"⟩
        { w with
            cache := { store := fun k2 => if k2 = "cold:" ++ d.fromAddr then none
                                          else w.cache.store k2,
                       ttl := w.cache.ttl },
            events := w.events ++ [Event.cacheGet ("cold:" ++ d.fromAddr)] } k hk).1
      rw [this]
      simp [hk]
    · rw [if_neg hexp]
      cases cv with
      | cold r2 => rfl
      | categorization r2 =>
        dsimp only
        exact (cacheMissInvoke_frame env vendor CachedValue.cold ("cold:" ++ d.fromAddr)
          ⟨(getColdEmailPrompt ⟨d.fromAddr, d.subject, d.body, p.userProfile⟩).prompt,
           (getColdEmailPrompt ⟨d.fromAddr, d.subject, d.body, p.userProfile⟩).system,
           Tier.economy, "detect_cold_email"⟩
          { w with events := w.events ++ [Event.cacheGet ("cold:" ++ d.fromAddr)] } k hk).1

/-- A failed cold-detection call on already-fetched data leaves the token
tracker unchanged. -/
theorem detectColdEmail_const_error_tracker {env : Env} {vendor : VendorFn ColdEmailResult}
    {p : DetectColdParams} {d : EmailBodyData} {w : World} {e : String}
    (h : (detectColdEmail env vendor p (constFetch d) w).1 = .error e) :
    (detectColdEmail env vendor p (constFetch d) w).2.tracker = w.tracker := by
  simp only [detectColdEmail, constFetch, World.cacheGet, LLMCache.get] at h ⊢
  cases hs : w.cache.store ("cold:" ++ d.fromAddr) with
  | none =>
    rw [hs] at h
    dsimp only at h ⊢
    exact cacheMissInvoke_error_tracker h
  | some entry =>
    rcases entry with ⟨cv, t⟩
    rw [hs] at h
    dsimp only at h ⊢
    by_cases hexp : w.now - t > w.cache.ttl
    · rw [if_pos hexp] at h ⊢
      dsimp only at h ⊢
      exact cacheMissInvoke_error_tracker h
    · rw [if_neg hexp] at h ⊢
      cases cv with
      | cold r2 => simp at h
      | categorization r2 =>
        dsimp only at h ⊢
        exact cacheMissInvoke_error_tracker h

/-- The two cache key namespaces are disjoint: no categorization key equals
any cold-detection key. -/
theorem catKey_ne_coldKey (x y : String) : "categorize:" ++ x ≠ "cold:" ++ y := by
  intro h
  have h1 : ("categorize:" ++ x).data = ("cold:" ++ y).data := by rw [h]
  rw [String.data_append, String.data_append] at h1
  have h2 : ("categorize:".data ++ x.data)[1]? = ("cold:".data ++ y.data)[1]? := by rw [h1]
  rw [List.getElem?_append_left (by decide), List.getElem?_append_left (by decide)] at h2
  simp at h2


/-! ## C3 — the cache as a pure optimization -/

/--
C3 (counterexample).  The claim says that for a deterministic vendor every
façade call returns the same result whether the cache is populated or
cleared.  The cold-detection cache is sender-keyed while its prompt depends
on the message body, so a second message from the same sender is answered
with the *first* message's cached verdict; recomputing it on a cleared
cache gives a different result value.
-/
theorem cold_cache_changes_content :
    (detectColdEmail testEnv echoVendorCold ⟨"m2", none⟩ (constFetch coldMailB)
      coldWorldA).1.isOk = true
    ∧ (detectColdEmail testEnv echoVendorCold ⟨"m2", none⟩ (constFetch coldMailB)
        { coldWorldA with cache := coldWorldA.cache.clear }).1.isOk = true
    ∧ (detectColdEmail testEnv echoVendorCold ⟨"m2", none⟩ (constFetch coldMailB) coldWorldA).1
      ≠ (detectColdEmail testEnv echoVendorCold ⟨"m2", none⟩ (constFetch coldMailB)
          { coldWorldA with cache := coldWorldA.cache.clear }).1 := by
  refine ⟨by decide, by decide, by decide⟩

/--
C3 (amended).  The cache changes result content only across *distinct*
requests that share a cache key: for a repeated identical request — the
same message data, under the deterministic vendor functions of this model —
the cold-detection façade returns the same result value whether the second
call is served from the cache or recomputed, so clearing the cache between
identical calls never changes the content, only whether a vendor call
occurs.
-/
theorem cold_repeat_identical (env : Env) (vendor : VendorFn ColdEmailResult)
    (p : DetectColdParams) (d : EmailBodyData) (w : World) (r : ColdEmailResult)
    (h : (detectColdEmail env vendor p (constFetch d) w).1 = .ok r) :
    (detectColdEmail env vendor p (constFetch d)
      ((detectColdEmail env vendor p (constFetch d) w).2)).1 = .ok r := by
  obtain ⟨t, hst, hfr⟩ := detectColdEmail_ok_cached h
  rw [detectColdEmail_hit env vendor p d _ r t hst hfr]

/--
C3 (witness for `cold_repeat_identical`): a concrete repeated identical
cold-detection request returns the identical result.
-/
theorem cold_repeat_identical_witness :
    (detectColdEmail testEnv mockVendorCold ⟨"m1", none⟩ (constFetch coldMailA)
      ((detectColdEmail testEnv mockVendorCold ⟨"m1", none⟩ (constFetch coldMailA)
        emptyWorld).2)).1 = .ok mockColdResult :=
  cold_repeat_identical testEnv mockVendorCold ⟨"m1", none⟩ coldMailA emptyWorld
    mockColdResult (by decide)

/-! ## C4 — sender-scoped cold-detection cache -/

/--
C4.  Two cold-detection calls on different messages whose fetched sender
address is equal, the second within the TTL of the first: the second call
is served from the cache under `cold:<senderAddress>` — it returns a result
identical to the first call's result and logs only the cache read, no
vendor call — and across both calls exactly one vendor invocation occurred.
-/
theorem cold_sender_cache_single_vendor_call
    (env : Env) (vendor : VendorFn ColdEmailResult) (p1 p2 : DetectColdParams)
    (d1 d2 : EmailBodyData) (w0 : World) (r1 : ColdEmailResult) (t2 : Nat)
    (hfresh : w0.cache.store ("cold:" ++ d1.fromAddr) = none)
    (hsender : d2.fromAddr = d1.fromAddr)
    (h1 : (detectColdEmail env vendor p1 (constFetch d1) w0).1 = .ok r1)
    (ht : t2 - w0.now ≤ w0.cache.ttl) :
    (detectColdEmail env vendor p2 (constFetch d2)
        { (detectColdEmail env vendor p1 (constFetch d1) w0).2 with now := t2 }).1 = .ok r1
    ∧ (detectColdEmail env vendor p2 (constFetch d2)
        { (detectColdEmail env vendor p1 (constFetch d1) w0).2 with now := t2 }).2.events
        = ((detectColdEmail env vendor p1 (constFetch d1) w0).2).events
          ++ [Event.cacheGet ("cold:" ++ d2.fromAddr)]
    ∧ vendorCallCount ((detectColdEmail env vendor p1 (constFetch d1) w0).2.events)
        = vendorCallCount w0.events + 1 := by
  obtain ⟨hev, hnow, httl, hst⟩ := detectColdEmail_miss_ok hfresh h1
  have hs2 : ({ (detectColdEmail env vendor p1 (constFetch d1) w0).2 with now := t2 }).cache.store
      ("cold:" ++ d2.fromAddr) = some ⟨CachedValue.cold r1, w0.now⟩ := by
    rw [hsender]
    exact hst
  have hfr2 : ¬(({ (detectColdEmail env vendor p1 (constFetch d1) w0).2 with now := t2 }).now - w0.now
      > ({ (detectColdEmail env vendor p1 (constFetch d1) w0).2 with now := t2 }).cache.ttl) := by
    dsimp only
    rw [httl]
    omega
  have h2 := detectColdEmail_hit env vendor p2 d2
    { (detectColdEmail env vendor p1 (constFetch d1) w0).2 with now := t2 } r1 w0.now hs2 hfr2
  rw [h2]
  refine ⟨rfl, rfl, ?_⟩
  rw [hev]
  simp [vendorCallCount, List.filter_append]

/--
C4 (witness for `cold_sender_cache_single_vendor_call`): two concrete
messages from `sales@vendor.com`, the second 1000 ms later, share one
vendor call, and the second call returns the first call's cached verdict.
-/
theorem cold_sender_cache_witness :
    (detectColdEmail testEnv mockVendorCold ⟨"m2", none⟩ (constFetch coldMailB)
        { (detectColdEmail testEnv mockVendorCold ⟨"m1", none⟩ (constFetch coldMailA)
            emptyWorld).2 with now := 1000 }).1 = .ok mockColdResult
    ∧ (detectColdEmail testEnv mockVendorCold ⟨"m2", none⟩ (constFetch coldMailB)
        { (detectColdEmail testEnv mockVendorCold ⟨"m1", none⟩ (constFetch coldMailA)
            emptyWorld).2 with now := 1000 }).2.events
        = ((detectColdEmail testEnv mockVendorCold ⟨"m1", none⟩ (constFetch coldMailA)
            emptyWorld).2).events ++ [Event.cacheGet ("cold:" ++ coldMailB.fromAddr)]
    ∧ vendorCallCount ((detectColdEmail testEnv mockVendorCold ⟨"m1", none⟩
        (constFetch coldMailA) emptyWorld).2.events)
        = vendorCallCount emptyWorld.events + 1 :=
  cold_sender_cache_single_vendor_call testEnv mockVendorCold ⟨"m1", none⟩ ⟨"m2", none⟩
    coldMailA coldMailB emptyWorld mockColdResult 1000
    rfl rfl (by decide) (by decide)

/-! ## C9 — façade composition order -/

/--
C9 (counterexample).  The claim says every façade performs the external
email-data fetch before consulting the cache.  `categorizeEmail` checks the
cache first: on a cache hit it succeeds even though its email provider
always throws, and its event log shows only the cache read — no fetch ever
happened.
-/
theorem categorize_cache_before_fetch :
    (categorizeEmail testEnv mockVendorCat ⟨"m1", none⟩ (loggingFetch failSnippetTbl)
      categorizeHitWorld).1 = .ok cachedCatResult
    ∧ (categorizeEmail testEnv mockVendorCat ⟨"m1", none⟩ (loggingFetch failSnippetTbl)
      categorizeHitWorld).2.events = [Event.cacheGet "categorize:m1"] := by
  refine ⟨by decide, by decide⟩

/--
C9 (amended).  The composition order differs per façade: `detectColdEmail`
fetches the email data before consulting the cache — its event log starts
with the fetch and then the sender-keyed cache read — while
`categorizeEmail` consults the cache *before* fetching, and on a fresh hit
returns the cached verdict having performed no fetch and no vendor call at
all.
-/
theorem facade_composition_order :
    (∀ (env : Env) (vendor : VendorFn ColdEmailResult) (p : DetectColdParams)
       (tbl : String → Except String EmailBodyData) (w : World) (d : EmailBodyData),
       tbl p.messageId = .ok d →
       ∃ rest, (detectColdEmail env vendor p (loggingFetch tbl) w).2.events
         = w.events ++ Event.fetchCall p.messageId
             :: Event.cacheGet ("cold:" ++ d.fromAddr) :: rest)
    ∧ (∀ (env : Env) (vendor : VendorFn CategorizationResult) (p : CategorizeParams)
       (f : FetchFn EmailSnippetData) (w : World) (r : CategorizationResult) (t : Nat),
       w.cache.store ("categorize:" ++ p.messageId) = some ⟨CachedValue.categorization r, t⟩ →
       ¬(w.now - t > w.cache.ttl) →
       categorizeEmail env vendor p f w
         = (.ok r, { w with
             events := w.events ++ [Event.cacheGet ("categorize:" ++ p.messageId)] })) := by
  constructor
  · intro env vendor p tbl w d htbl
    have hf : loggingFetch tbl p.messageId w
        = (.ok d, { w with events := w.events ++ [Event.fetchCall p.messageId] }) := by
      simp [loggingFetch, htbl]
    rw [detectColdEmail_fetch_ok hf]
    obtain ⟨rest, hrest⟩ := detectColdEmail_const_events env vendor p d
      { w with events := w.events ++ [Event.fetchCall p.messageId] }
    exact ⟨rest, by rw [hrest]; simp⟩
  · intro env vendor p f w r t hs hfr
    exact categorizeEmail_hit env vendor p f w r t hs hfr

/--
C9 (witness for `facade_composition_order`): a concrete cold-detection call
logs the fetch before the cache read, and a concrete categorization cache
hit returns the cached verdict with only the cache read logged.
-/
theorem facade_composition_order_witness :
    (∃ rest, (detectColdEmail testEnv mockVendorCold ⟨"m1", none⟩
        (loggingFetch (fun _ => .ok coldMailA)) emptyWorld).2.events
        = emptyWorld.events ++ Event.fetchCall "m1"
            :: Event.cacheGet ("cold:" ++ coldMailA.fromAddr) :: rest)
    ∧ categorizeEmail testEnv mockVendorCat ⟨"m1", none⟩ (loggingFetch failSnippetTbl)
        categorizeHitWorld
        = (.ok cachedCatResult,
           { categorizeHitWorld with
               events := categorizeHitWorld.events ++ [Event.cacheGet "categorize:m1"] }) :=
  ⟨facade_composition_order.1 testEnv mockVendorCold ⟨"m1", none⟩
     (fun _ => .ok coldMailA) emptyWorld coldMailA rfl,
   facade_composition_order.2 testEnv mockVendorCat ⟨"m1", none⟩
     (loggingFetch failSnippetTbl) categorizeHitWorld cachedCatResult 0
     (by decide) (by decide)⟩

/-! ## C10 — no rollback of completed analyses in a dropped batch item -/

/--
C10.  When, while the batch loop processes one identifier with
`[categorize, cold_detection]` requested, the categorization completes and
the subsequent cold detection raises: the item is dropped (`none`) with the
failure state kept, the `categorize:<messageId>` cache entry written by the
completed analysis is still in the shared cache, and the token tracker is
exactly as the completed categorization left it — nothing is rolled back.
-/
theorem batch_no_rollback (env : Env) (vCat : VendorFn CategorizationResult)
    (vCtx : VendorFn ContextExtractionResult) (vCold : VendorFn ColdEmailResult)
    (fetch : FetchFn EmailFullData) (id : String) (d : EmailFullData)
    (w : World) (r : CategorizationResult) (e : String)
    (hf : (fetch id w).1 = .ok d)
    (hbody : bodyTruthy d.body = true)
    (hcat : (categorizeEmail env vCat { messageId := id, categories := none }
              (constFetch d.toSnippet) (fetch id w).2).1 = .ok r)
    (hcold : (detectColdEmail env vCold { messageId := id, userProfile := none }
              (constFetch d.toBody)
              (categorizeEmail env vCat { messageId := id, categories := none }
                (constFetch d.toSnippet) (fetch id w).2).2).1 = .error e) :
    batchProcessOne env vCat vCtx vCold fetch
        [AnalysisType.categorize, AnalysisType.cold_detection] id w
      = (none, (detectColdEmail env vCold { messageId := id, userProfile := none }
                  (constFetch d.toBody)
                  (categorizeEmail env vCat { messageId := id, categories := none }
                    (constFetch d.toSnippet) (fetch id w).2).2).2)
    ∧ (∃ t, (detectColdEmail env vCold { messageId := id, userProfile := none }
              (constFetch d.toBody)
              (categorizeEmail env vCat { messageId := id, categories := none }
                (constFetch d.toSnippet) (fetch id w).2).2).2.cache.store ("categorize:" ++ id)
            = some ⟨CachedValue.categorization r, t⟩)
    ∧ (detectColdEmail env vCold { messageId := id, userProfile := none }
        (constFetch d.toBody)
        (categorizeEmail env vCat { messageId := id, categories := none }
          (constFetch d.toSnippet) (fetch id w).2).2).2.tracker
        = (categorizeEmail env vCat { messageId := id, categories := none }
            (constFetch d.toSnippet) (fetch id w).2).2.tracker := by
  refine ⟨?_, ?_, ?_⟩
  · have hfe : fetch id w = (.ok d, (fetch id w).2) := by
      rw [← hf]
    have hce : categorizeEmail env vCat { messageId := id, categories := none }
        (constFetch d.toSnippet) (fetch id w).2
        = (.ok r, (categorizeEmail env vCat { messageId := id, categories := none }
            (constFetch d.toSnippet) (fetch id w).2).2) := by
      rw [← hcat]
    have hde : detectColdEmail env vCold { messageId := id, userProfile := none }
        (constFetch d.toBody)
        (categorizeEmail env vCat { messageId := id, categories := none }
          (constFetch d.toSnippet) (fetch id w).2).2
        = (.error e, (detectColdEmail env vCold { messageId := id, userProfile := none }
            (constFetch d.toBody)
            (categorizeEmail env vCat { messageId := id, categories := none }
              (constFetch d.toSnippet) (fetch id w).2).2).2) := by
      rw [← hcold]
    unfold batchProcessOne
    rw [hfe]
    dsimp only
    rw [hce]
    rw [if_pos (show ([AnalysisType.categorize, AnalysisType.cold_detection].contains
      AnalysisType.categorize) = true from by decide)]
    dsimp only
    rw [if_neg (show ¬(([AnalysisType.categorize, AnalysisType.cold_detection].contains
        AnalysisType.context && bodyTruthy d.body) = true) from by
      simp [show ([AnalysisType.categorize, AnalysisType.cold_detection].contains
        AnalysisType.context) = false from by decide])]
    dsimp only
    rw [if_pos (show (([AnalysisType.categorize, AnalysisType.cold_detection].contains
        AnalysisType.cold_detection && bodyTruthy d.body) = true) from by
      simp [hbody]
      exact Or.inr rfl)]
    rw [hde]
  · obtain ⟨t, hst⟩ := categorizeEmail_ok_cached hcat
    have hfr := detectColdEmail_const_frame env vCold { messageId := id, userProfile := none }
      d.toBody
      (categorizeEmail env vCat { messageId := id, categories := none }
        (constFetch d.toSnippet) (fetch id w).2).2
      ("categorize:" ++ id) (catKey_ne_coldKey id d.toBody.fromAddr)
    exact ⟨t, by rw [hfr]; exact hst⟩
  · exact detectColdEmail_const_error_tracker hcold

/--
C10 (witness for `batch_no_rollback`): a concrete item whose categorize
step succeeds and whose cold-detection vendor throws is dropped, while its
categorization cache entry and tracker state persist.
-/
theorem batch_no_rollback_witness :
    batchProcessOne testEnv mockVendorCat mockVendorCtx failVendorCold goodFetch
        [AnalysisType.categorize, AnalysisType.cold_detection] "m1" emptyWorld
      = (none, (detectColdEmail testEnv failVendorCold { messageId := "m1", userProfile := none }
                  (constFetch batchMailData.toBody)
                  (categorizeEmail testEnv mockVendorCat { messageId := "m1", categories := none }
                    (constFetch batchMailData.toSnippet) (goodFetch "m1" emptyWorld).2).2).2)
    ∧ (∃ t, (detectColdEmail testEnv failVendorCold { messageId := "m1", userProfile := none }
              (constFetch batchMailData.toBody)
              (categorizeEmail testEnv mockVendorCat { messageId := "m1", categories := none }
                (constFetch batchMailData.toSnippet) (goodFetch "m1" emptyWorld).2).2).2.cache.store
              ("categorize:" ++ "m1")
            = some ⟨CachedValue.categorization mockCatResult, t⟩)
    ∧ (detectColdEmail testEnv failVendorCold { messageId := "m1", userProfile := none }
        (constFetch batchMailData.toBody)
        (categorizeEmail testEnv mockVendorCat { messageId := "m1", categories := none }
          (constFetch batchMailData.toSnippet) (goodFetch "m1" emptyWorld).2).2).2.tracker
        = (categorizeEmail testEnv mockVendorCat { messageId := "m1", categories := none }
            (constFetch batchMailData.toSnippet) (goodFetch "m1" emptyWorld).2).2.tracker :=
  batch_no_rollback testEnv mockVendorCat mockVendorCtx failVendorCold goodFetch "m1"
    batchMailData emptyWorld mockCatResult "provider down"
    (by decide) (by decide) (by decide) (by decide)

end GmailMCP
